import Mathlib

/-!
The file `sway/desktop/xwayland.c`.

A shallow embedding of the xwayland glue of sway (`sway/desktop/xwayland.c`):
the view implementation (`get_prop`, `set_size`, `set_position`,
`set_activated`, `close_view`), the listeners of a surface (`handle_commit`,
`handle_destroy`, `handle_unmap`, `handle_map`, `handle_request_configure`)
and `handle_xwayland_surface`, which binds a new surface.

Pointers are natural numbers (`Option Nat` where the C pointer may be NULL).
The intrusive `wl_list` of unmanaged views is the list of the views linked in
it, head first.  Calls into wlroots and into the other parts of sway that only
ask for something to be done (configure, damage, arrange, focus, log) are
appended to `Server.calls` in program order, with the values the callee
receives: `wlr_xwayland_surface_configure` takes `int16_t x, y` and
`uint16_t width, height`, so an `int` or `double` argument is recorded after
its conversion to the parameter type.  C `int`, `int16_t` and `uint16_t`
values are carried as `Int` (a field of type `int16_t` or `uint16_t` holds a
value of its range); the positions of containers are C doubles, carried as
`double` below.
-/

namespace Xwayland

/-! ## Data model -/

/-- A C `double`: the finite number `mant * 2 ^ exp` (every finite double is
of this form with `|mant| < 2 ^ 53` and `-1074 ≤ exp`), an infinity, or a
NaN. -/
inductive double where
  | finite (mant exp : Int)
  | infinite (negative : Bool)
  | nan
  deriving DecidableEq

/-- The conversion of an `int` to `double`, which is exact. -/
def double.of_int (n : Int) : double :=
  double.finite n 0

/-- The number of binary digits of `n`, counted in at most `fuel` steps (`n`
steps are enough). -/
def bit_length : Nat → Nat → Nat
  | 0, _ => 0
  | fuel + 1, n => if n = 0 then 0 else bit_length fuel (n / 2) + 1

/-- The rounding of `m * 2 ^ e` to the 53 bits of a double, to nearest, ties
to even: the low bits of a longer `m` are dropped and the exponent raised. -/
def double.round (m : Int) (e : Int) : double :=
  let a := m.natAbs
  if a < 2 ^ 53 then double.finite m e
  else
    let k := bit_length a a - 53
    let q := a / 2 ^ k
    let r := a % 2 ^ k
    let half := 2 ^ (k - 1)
    let q1 := if half < r ∨ (r = half ∧ q % 2 = 1) then q + 1 else q
    double.finite (if m < 0 then -(q1 : Int) else (q1 : Int)) (e + k)

/-- The sum of two doubles: the exact sum of two finite numbers, rounded (the
sums of this file add an `int` to a double, which never leaves the finite
range); an infinity or a NaN is handed on. -/
def double.add : double → double → double
  | double.finite m1 e1, double.finite m2 e2 =>
    double.round (m1 * 2 ^ (e1 - min e1 e2).toNat + m2 * 2 ^ (e2 - min e1 e2).toNat)
      (min e1 e2)
  | double.nan, _ => double.nan
  | _, double.nan => double.nan
  | double.infinite s, double.finite _ _ => double.infinite s
  | double.finite _ _, double.infinite s => double.infinite s
  | double.infinite s1, double.infinite s2 =>
    if s1 = s2 then double.infinite s1 else double.nan

/-- The integral part of a finite double: the fraction is dropped, towards
zero. -/
def trunc_finite (mant exp : Int) : Int :=
  if 0 ≤ exp then mant * 2 ^ exp.toNat
  else if mant < 0 then -((mant.natAbs / 2 ^ (-exp).toNat : Nat) : Int)
  else ((mant.natAbs / 2 ^ (-exp).toNat : Nat) : Int)

/-- The conversion of an `int` to `int16_t`: the low 16 bits, as a signed
number. -/
def int16_of_int (n : Int) : Int :=
  (n + 32768) % 65536 - 32768

/-- The conversion of an `int` to `uint16_t`: the low 16 bits. -/
def uint16_of_int (n : Int) : Int :=
  n % 65536

/-- The conversion of a `double` argument to an `int16_t` parameter: the
fraction is dropped and the 16 low bits of the 32-bit integer are kept.  C
defines the result only when the integral part is in the range of `int16_t`,
where it is that integral part; outside it the model follows what the
compiled conversion through a 32-bit register does on x86-64, which gives 0
when the integral part does not fit 32 bits, for an infinity and for a
NaN. -/
def int16_of_double : double → Int
  | double.finite mant exp =>
    if -2147483648 ≤ trunc_finite mant exp ∧ trunc_finite mant exp ≤ 2147483647 then
      int16_of_int (trunc_finite mant exp)
    else 0
  | _ => 0

/-- The `enum sway_view_type` of `sway/tree/view.h`. -/
inductive sway_view_type where
  | SWAY_WL_SHELL_VIEW
  | SWAY_XDG_SHELL_V6_VIEW
  | SWAY_XWAYLAND_VIEW
  deriving DecidableEq

/-- The `enum sway_view_prop` of `sway/tree/view.h`. -/
inductive sway_view_prop where
  | VIEW_PROP_TITLE
  | VIEW_PROP_APP_ID
  | VIEW_PROP_CLASS
  | VIEW_PROP_INSTANCE
  deriving DecidableEq

/-- The `enum sway_container_type` of `sway/tree/container.h`. -/
inductive sway_container_type where
  | C_ROOT
  | C_OUTPUT
  | C_WORKSPACE
  | C_CONTAINER
  | C_VIEW
  deriving DecidableEq

/-- The five `wl_listener` members of `struct sway_xwayland_surface`. -/
inductive wl_listener where
  | commit
  | destroy
  | request_configure
  | unmap
  | map
  deriving DecidableEq

/-- The fields of wlroots' `struct wlr_xwayland_surface` that the file reads
(`x`, `y` are `int16_t`, `width`, `height` are `uint16_t`).  `is_unmanaged`
is the answer of `wlr_xwayland_surface_is_unmanaged`, `mapped` is the field
wlroots keeps and this file never reads. -/
structure wlr_xwayland_surface where
  surface : Option Nat
  title : Option String
  class_ : Option String
  x : Int
  y : Int
  width : Int
  height : Int
  override_redirect : Bool
  is_unmanaged : Bool
  mapped : Bool
  deriving DecidableEq

/-- The `struct wlr_xwayland_surface_configure_event` of wlroots (`x`, `y` are
`int16_t`, `width`, `height` are `uint16_t`). -/
structure wlr_xwayland_surface_configure_event where
  x : Int
  y : Int
  width : Int
  height : Int
  deriving DecidableEq

/-- An entry of wlroots' output layout: the output and its offset, two
`int`. -/
structure wlr_output_layout_output where
  output : Nat
  x : Int
  y : Int
  deriving DecidableEq

/-- A `struct sway_container`: `id` is its address, `x` and `y` are doubles,
`sway_view` is the view of a `C_VIEW`, `wlr_output` is
`sway_output->wlr_output` of a `C_OUTPUT` and `output_layout` is
`sway_root->output_layout` of the `C_ROOT`. -/
structure sway_container where
  id : Nat
  type : sway_container_type
  parent : Option Nat
  x : double
  y : double
  sway_view : Option Nat
  wlr_output : Nat
  output_layout : List wlr_output_layout_output
  deriving DecidableEq

/-- The `struct sway_view` fields used here.  `iface` tells whether the five
function pointers of this file are installed; the pointers
`wlr_xwayland_surface` and `sway_xwayland_surface` are the fields `xsurface`
and `sway_surface` of `World`, and `unmanaged_view_link` is linked exactly when
the view is in `Server.unmanaged_views`. -/
structure sway_view where
  type : sway_view_type
  iface : Bool
  swayc : Option Nat
  surface : Option Nat
  width : Int
  height : Int
  deriving DecidableEq

/-- The `struct sway_xwayland_surface` without its listeners, which are kept
in `Server.listeners` while they are linked into a signal. -/
structure sway_xwayland_surface where
  pending_width : Int
  pending_height : Int
  deriving DecidableEq

/-- A call that leaves this file, with the arguments the callee receives. -/
inductive Call where
  | wlr_log (msg : String)
  | sway_assert_failed (msg : String)
  | wlr_xwayland_surface_configure (x y width height : Int)
  | wlr_xwayland_surface_activate (activated : Bool)
  | wlr_xwayland_surface_close
  | wlr_xwayland_surface_set_maximized (maximized : Bool)
  | view_damage_from (view : Nat)
  | view_damage_whole (view : Nat)
  | arrange_windows (container : Option Nat) (width height : Int)
  | input_manager_set_focus (container : Nat)
  deriving DecidableEq

/-- The compositor state the file works on: `unmanaged_views` is
`root_container.sway_root->unmanaged_views`, `nodes` the containers of the
tree, `focus_inactive` what `seat_get_focus_inactive` answers, `listeners` the
listeners of this file linked into the signals of the announced surface, in
the order they were added, and `calls` the calls made so far. -/
structure Server where
  unmanaged_views : List Nat
  nodes : List sway_container
  focus_inactive : Nat
  listeners : List wl_listener
  calls : List Call
  deriving DecidableEq

/-- The server together with one bound surface: the wlroots surface, the
`sway_xwayland_surface` and the `sway_view` allocated for it (`view_ptr` is
the address of the view). -/
structure World extends Server where
  xsurface : wlr_xwayland_surface
  sway_surface : sway_xwayland_surface
  view_ptr : Nat
  view : sway_view
  deriving DecidableEq

/-! ## libwayland and wlroots -/

/-- The `wl_list_remove` of a view link: the view leaves the list; nothing
happens when the link is not in it (a link set up by `wl_list_init`). -/
def wl_list_remove (list : List Nat) (elm : Nat) : List Nat :=
  list.filter (fun e => e != elm)

/-- The `wl_list_insert` right after the list head: the element becomes the
first of the list. -/
def wl_list_insert (list : List Nat) (elm : Nat) : List Nat :=
  elm :: list

/-- The `wl_signal_add`: the listener is linked at the end of the signal. -/
def wl_signal_add (listeners : List wl_listener) (l : wl_listener) : List wl_listener :=
  listeners ++ [l]

/-- The `wl_list_remove` of a listener link. -/
def wl_listener_remove (listeners : List wl_listener) (l : wl_listener) : List wl_listener :=
  listeners.filter (fun e => e != l)

/-- The `wlr_xwayland_surface_is_unmanaged` of wlroots. -/
def wlr_xwayland_surface_is_unmanaged (xsurface : wlr_xwayland_surface) : Bool :=
  xsurface.is_unmanaged

/-- The `wlr_output_layout_get` of wlroots: the layout entry of the output,
none when the output is not in the layout. -/
def wlr_output_layout_get (layout : List wlr_output_layout_output) (output : Nat) :
    Option wlr_output_layout_output :=
  layout.find? (fun l => l.output == output)

/-! ## The rest of sway -/

/-- Modelled from the spec: `sway_assert` of `common/log.c` is not part of the
sources at hand; it "records invariant violations without terminating the
process": a failed assertion is logged and the condition is returned. -/
def sway_assert (calls : List Call) (cond : Bool) (msg : String) : Bool × List Call :=
  if cond then (true, calls) else (false, calls ++ [Call.sway_assert_failed msg])

/-- The container with the given address. -/
def find_container (nodes : List sway_container) (id : Nat) : Option sway_container :=
  nodes.find? (fun c => c.id == id)

/-- The walk of `container_parent` up the parent links, at most `fuel` steps. -/
def container_parent_from (nodes : List sway_container) (type : sway_container_type) :
    Nat → Option Nat → Option sway_container
  | 0, _ => none
  | _ + 1, none => none
  | fuel + 1, some p =>
    match find_container nodes p with
    | none => none
    | some c => if c.type = type then some c else container_parent_from nodes type fuel c.parent

/-- Modelled from the spec: `container_parent` of `sway/tree/container.c` is
not part of the sources at hand; the Tree API of the spec has it "look up the
output ancestor of a node" and "look up the root of the tree": the nearest
proper ancestor of the given type, none for a NULL container or when there is
no such ancestor. -/
def container_parent (nodes : List sway_container) (container : Option Nat)
    (type : sway_container_type) : Option sway_container :=
  match container with
  | none => none
  | some n =>
    match find_container nodes n with
    | none => none
    | some c => container_parent_from nodes type nodes.length c.parent

/-- An address no container of the tree has. -/
def fresh_id (nodes : List sway_container) : Nat :=
  (nodes.map (fun c => c.id)).foldr max 0 + 1

/-- Modelled from the spec: `container_view_create` of
`sway/tree/container.c` is not part of the sources at hand; the Tree API of
the spec has it "create a node for a view under a given parent container".
The new `C_VIEW` container is returned with the tree that holds it. -/
def container_view_create (nodes : List sway_container) (sibling : Nat) (view : Nat) :
    sway_container × List sway_container :=
  let cont : sway_container :=
    { id := fresh_id nodes, type := sway_container_type.C_VIEW, parent := some sibling,
      x := double.of_int 0, y := double.of_int 0, sway_view := some view, wlr_output := 0,
      output_layout := [] }
  (cont, nodes ++ [cont])

/-- Modelled from the spec: `container_view_destroy` of
`sway/tree/container.c` is not part of the sources at hand; the Tree API of
the spec has it "destroy a node and detach its view backreference", and it is
idempotent: nothing happens for NULL. -/
def container_view_destroy (nodes : List sway_container) (view : Option Nat) :
    List sway_container :=
  match view with
  | none => nodes
  | some n => nodes.filter (fun c => c.id != n)

/-- Modelled from the spec: `seat_get_focus_inactive` of `sway/input/seat.c`
is not part of the sources at hand; the spec has it "obtain the currently
relevant insertion target" for new windows. -/
def seat_get_focus_inactive (srv : Server) : Nat :=
  srv.focus_inactive

/-- The call is appended to the calls made so far. -/
def World.call (w : World) (c : Call) : World :=
  { w with calls := w.calls ++ [c] }

/-! ## sway/desktop/xwayland.c -/

/-- The `assert_xwayland` of the source. -/
def assert_xwayland (calls : List Call) (view : sway_view) : Bool × List Call :=
  sway_assert calls (view.type == sway_view_type.SWAY_XWAYLAND_VIEW) "Expected xwayland view!"

/-- The `get_prop` of the source: the answer and the world (a failed
assertion is logged). -/
def get_prop (w : World) (prop : sway_view_prop) : Option String × World :=
  let a := assert_xwayland w.calls w.view
  if !a.1 then (none, { w with calls := a.2 })
  else
    match prop with
    | sway_view_prop.VIEW_PROP_TITLE => (w.xsurface.title, w)
    | sway_view_prop.VIEW_PROP_CLASS => (w.xsurface.class_, w)
    | _ => (none, w)

/-- The `set_size` of the source. -/
def set_size (w : World) (width height : Int) : World :=
  let a := assert_xwayland w.calls w.view
  if !a.1 then { w with calls := a.2 }
  else
    let w := { w with sway_surface := { w.sway_surface with pending_width := width } }
    let w := { w with sway_surface := { w.sway_surface with pending_height := height } }
    let xsurface := w.xsurface
    w.call (Call.wlr_xwayland_surface_configure xsurface.x xsurface.y
      (uint16_of_int width) (uint16_of_int height))

/-- The assignment `view->swayc->x = ox; view->swayc->y = oy`. -/
def set_container_position (nodes : List sway_container) (swayc : Option Nat)
    (ox oy : double) : List sway_container :=
  match swayc with
  | none => nodes
  | some n => nodes.map (fun c => if c.id = n then { c with x := ox, y := oy } else c)

/-- The `set_position` of the source. -/
def set_position (w : World) (ox oy : double) : World :=
  let a := assert_xwayland w.calls w.view
  if !a.1 then { w with calls := a.2 }
  else
    let output := container_parent w.nodes w.view.swayc sway_container_type.C_OUTPUT
    let a := sway_assert w.calls output.isSome "view must be within tree to set position"
    match output with
    | none => { w with calls := a.2 }
    | some output =>
      let root := container_parent w.nodes (some output.id) sway_container_type.C_ROOT
      let a := sway_assert w.calls root.isSome "output must be within tree to set position"
      match root with
      | none => { w with calls := a.2 }
      | some root =>
        let layout := root.output_layout
        let loutput := wlr_output_layout_get layout output.wlr_output
        let a := sway_assert w.calls loutput.isSome "output must be within layout to set position"
        match loutput with
        | none => { w with calls := a.2 }
        | some loutput =>
          let w := { w with nodes := set_container_position w.nodes w.view.swayc ox oy }
          w.call (Call.wlr_xwayland_surface_configure
            (int16_of_double (double.add ox (double.of_int loutput.x)))
            (int16_of_double (double.add oy (double.of_int loutput.y)))
            w.xsurface.width w.xsurface.height)

/-- The `set_activated` of the source. -/
def set_activated (w : World) (activated : Bool) : World :=
  let a := assert_xwayland w.calls w.view
  if !a.1 then { w with calls := a.2 }
  else w.call (Call.wlr_xwayland_surface_activate activated)

/-- The `close_view` of the source. -/
def close_view (w : World) : World :=
  let a := assert_xwayland w.calls w.view
  if !a.1 then { w with calls := a.2 }
  else w.call Call.wlr_xwayland_surface_close

/-- The `handle_commit` of the source. -/
def handle_commit (w : World) : World :=
  let w := { w with view := { w.view with width := w.sway_surface.pending_width } }
  let w := { w with view := { w.view with height := w.sway_surface.pending_height } }
  w.call (Call.view_damage_from w.view_ptr)

/-- The `handle_destroy` of the source. -/
def handle_destroy (w : World) : World :=
  let w := { w with listeners := wl_listener_remove w.listeners wl_listener.commit }
  let w := { w with listeners := wl_listener_remove w.listeners wl_listener.destroy }
  let w := { w with listeners := wl_listener_remove w.listeners wl_listener.request_configure }
  let w := { w with unmanaged_views := wl_list_remove w.unmanaged_views w.view_ptr }
  let w := { w with nodes := container_view_destroy w.nodes w.view.swayc }
  let w := { w with view := { w.view with swayc := none } }
  { w with view := { w.view with surface := none } }

/-- The `handle_unmap` of the source. -/
def handle_unmap (w : World) : World :=
  let w := w.call (Call.view_damage_whole w.view_ptr)
  let w := { w with unmanaged_views := wl_list_remove w.unmanaged_views w.view_ptr }
  let w := { w with nodes := container_view_destroy w.nodes w.view.swayc }
  let w := { w with view := { w.view with swayc := none } }
  { w with view := { w.view with surface := none } }

/-- The `handle_map` of the source; `xsurface` is the `data` of the event. -/
def handle_map (w : World) (xsurface : wlr_xwayland_surface) : World :=
  let w := { w with view := { w.view with surface := xsurface.surface } }
  let w :=
    if wlr_xwayland_surface_is_unmanaged xsurface || xsurface.override_redirect then
      let w := { w with unmanaged_views := wl_list_remove w.unmanaged_views w.view_ptr }
      { w with unmanaged_views := wl_list_insert w.unmanaged_views w.view_ptr }
    else
      let w := { w with nodes := container_view_destroy w.nodes w.view.swayc }
      let w := w.call (Call.wlr_xwayland_surface_set_maximized true)
      let focus := seat_get_focus_inactive w.toServer
      let created := container_view_create w.nodes focus w.view_ptr
      let cont := created.1
      let w := { w with nodes := created.2 }
      let w := { w with view := { w.view with swayc := some cont.id } }
      let w := w.call (Call.arrange_windows cont.parent (-1) (-1))
      w.call (Call.input_manager_set_focus cont.id)
  w.call (Call.view_damage_whole w.view_ptr)

/-- The `handle_request_configure` of the source. -/
def handle_request_configure (w : World) (ev : wlr_xwayland_surface_configure_event) : World :=
  w.call (Call.wlr_xwayland_surface_configure ev.x ev.y ev.width ev.height)

/-- How `handle_xwayland_surface` ends: it dereferences a NULL
`xsurface->surface`, it returns early without a binding, or it returns with
the surface bound. -/
inductive BindResult where
  | crashed
  | returned (srv : Server)
  | bound (w : World)
  deriving DecidableEq

/-- The `handle_xwayland_surface` of the source; `sway_surface_alloc` and
`sway_view_alloc` are what the two `calloc` calls return. -/
def handle_xwayland_surface (srv : Server) (xsurface : wlr_xwayland_surface)
    (sway_surface_alloc sway_view_alloc : Option Nat) : BindResult :=
  let srv := { srv with calls := srv.calls ++ [Call.wlr_log "New xwayland surface"] }
  let a := sway_assert srv.calls sway_surface_alloc.isSome "Failed to allocate surface!"
  match sway_surface_alloc with
  | none => BindResult.returned { srv with calls := a.2 }
  | some _ =>
    let a := sway_assert srv.calls sway_view_alloc.isSome "Failed to allocate view!"
    match sway_view_alloc with
    | none => BindResult.returned { srv with calls := a.2 }
    | some sway_view_ptr =>
      let sway_view : sway_view :=
        { type := sway_view_type.SWAY_XWAYLAND_VIEW, iface := true, swayc := none,
          surface := none, width := 0, height := 0 }
      let sway_surface : sway_xwayland_surface := { pending_width := 0, pending_height := 0 }
      match xsurface.surface with
      | none => BindResult.crashed
      | some _ =>
        let srv := { srv with listeners := wl_signal_add srv.listeners wl_listener.commit }
        let srv := { srv with listeners := wl_signal_add srv.listeners wl_listener.destroy }
        let srv := { srv with
          listeners := wl_signal_add srv.listeners wl_listener.request_configure }
        let srv := { srv with listeners := wl_signal_add srv.listeners wl_listener.unmap }
        let srv := { srv with listeners := wl_signal_add srv.listeners wl_listener.map }
        let w : World :=
          { toServer := srv, xsurface := xsurface, sway_surface := sway_surface,
            view_ptr := sway_view_ptr, view := sway_view }
        BindResult.bound (handle_map w xsurface)

/-! ## Events and observations -/

/-- A lifecycle event of the bound surface, with the `data` its listener is
called with. -/
inductive Event where
  | map (xsurface : wlr_xwayland_surface)
  | unmap
  | commit
  | request_configure (ev : wlr_xwayland_surface_configure_event)
  | destroy
  deriving DecidableEq

/-- One event is delivered: its listener runs to completion.  The surface
handed to the map listener is the bound surface in its state at that time. -/
def step (w : World) : Event → World
  | Event.map xsurface => handle_map { w with xsurface := xsurface } xsurface
  | Event.unmap => handle_unmap w
  | Event.commit => handle_commit w
  | Event.request_configure ev => handle_request_configure w ev
  | Event.destroy => handle_destroy w

/-- The events are delivered one after the other. -/
def run (w : World) (events : List Event) : World :=
  events.foldl step w

/-- The test of `handle_map`: the surface goes to the unmanaged list. -/
def goes_unmanaged (xsurface : wlr_xwayland_surface) : Bool :=
  wlr_xwayland_surface_is_unmanaged xsurface || xsurface.override_redirect

/-- The view has a container: `view->swayc` is not NULL. -/
def tree_attached (w : World) : Bool :=
  w.view.swayc.isSome

/-- The view is linked in the list of unmanaged views. -/
def overlay_attached (w : World) : Bool :=
  w.unmanaged_views.contains w.view_ptr

/-- The calls made since the trace was `before`. -/
def issued (before after : List Call) : List Call :=
  after.drop before.length

/-- The call is a `wlr_xwayland_surface_configure`. -/
def Call.is_configure : Call → Bool
  | Call.wlr_xwayland_surface_configure _ _ _ _ => true
  | _ => false

/-- The registry the view was last put in, while it is mapped: none after an
unmap or a destroy. -/
def registry_after_event (cur : Option Bool) : Event → Option Bool
  | Event.map xsurface => some (goes_unmanaged xsurface)
  | Event.unmap => none
  | Event.destroy => none
  | _ => cur

/-- Every map event finds the view unmapped or mapped in the registry the
event routes it to; `cur` is the registry before the first event. -/
def maps_agree : Option Bool → List Event → Bool
  | _, [] => true
  | cur, e :: es =>
    (match e with
      | Event.map xsurface => cur.all (fun r => r == goes_unmanaged xsurface)
      | _ => true) && maps_agree (registry_after_event cur e) es

/-- Whether the surface is mapped after the events: the last map or unmap
event was a map and there was no destroy after it; `mapped` tells whether it
was mapped before the events. -/
def mapped_after (mapped : Bool) : List Event → Bool
  | [] => mapped
  | Event.map _ :: es => mapped_after true es
  | Event.unmap :: es => mapped_after false es
  | Event.destroy :: es => mapped_after false es
  | _ :: es => mapped_after mapped es

/-- Every map event of the list carries a surface whose `surface` pointer is
not NULL. -/
def maps_have_surface : List Event → Bool
  | [] => true
  | Event.map xsurface :: es => xsurface.surface.isSome && maps_have_surface es
  | _ :: es => maps_have_surface es

/-! ## Concrete inputs -/

/-- A root container whose output layout has output 10 at offset (1920, 0). -/
def example_root : sway_container :=
  { id := 1, type := sway_container_type.C_ROOT, parent := none,
    x := double.of_int 0, y := double.of_int 0, sway_view := none, wlr_output := 0,
    output_layout := [{ output := 10, x := 1920, y := 0 }] }

/-- The container of output 10, under the root. -/
def example_output : sway_container :=
  { id := 2, type := sway_container_type.C_OUTPUT, parent := some 1,
    x := double.of_int 0, y := double.of_int 0, sway_view := none, wlr_output := 10,
    output_layout := [] }

/-- A workspace on that output. -/
def example_workspace : sway_container :=
  { id := 3, type := sway_container_type.C_WORKSPACE, parent := some 2,
    x := double.of_int 0, y := double.of_int 0, sway_view := none, wlr_output := 0,
    output_layout := [] }

/-- A tree with the root, the output and the workspace. -/
def example_nodes : List sway_container :=
  [example_root, example_output, example_workspace]

/-- A server with that tree, no unmanaged view and the workspace in focus. -/
def example_server : Server :=
  { unmanaged_views := [], nodes := example_nodes, focus_inactive := 3, listeners := [],
    calls := [] }

/-- The surface of the scenarios of the spec: title "Term", class "term-app",
not mapped, not override-redirect, reporting 800 x 600. -/
def term_surface : wlr_xwayland_surface :=
  { surface := some 100, title := some "Term", class_ := some "term-app", x := 0, y := 0,
    width := 800, height := 600, override_redirect := false, is_unmanaged := false,
    mapped := false }

/-- The same surface with a window type that `wlr_xwayland_surface_is_unmanaged`
answers yes for (a tooltip, say), override-redirect not set. -/
def tooltip_surface : wlr_xwayland_surface :=
  { term_surface with is_unmanaged := true }

/-- The same surface with override-redirect set. -/
def menu_surface : wlr_xwayland_surface :=
  { term_surface with override_redirect := true }

/-- The world `handle_xwayland_surface` has built when it calls `handle_map`:
the view and the surface record are zeroed by `calloc`, the five listeners are
added. -/
def bind_world (srv : Server) (xsurface : wlr_xwayland_surface) (view_ptr : Nat) : World :=
  { unmanaged_views := srv.unmanaged_views, nodes := srv.nodes,
    focus_inactive := srv.focus_inactive,
    listeners := srv.listeners ++ [wl_listener.commit, wl_listener.destroy,
      wl_listener.request_configure, wl_listener.unmap, wl_listener.map],
    calls := srv.calls ++ [Call.wlr_log "New xwayland surface"],
    xsurface := xsurface, sway_surface := { pending_width := 0, pending_height := 0 },
    view_ptr := view_ptr,
    view := { type := sway_view_type.SWAY_XWAYLAND_VIEW, iface := true, swayc := none,
              surface := none, width := 0, height := 0 } }

/-- What the comparison of two attachments looks at: the surface reference,
whether the view has a container and that container without its address, the
other containers of the tree, and the unmanaged list. -/
structure Attachment where
  surface : Option Nat
  attached : Bool
  node : Option sway_container
  others : List sway_container
  unmanaged_views : List Nat
  deriving DecidableEq

/-- The attachment of the view of a world. -/
def observe (w : World) : Attachment :=
  { surface := w.view.surface,
    attached := w.view.swayc.isSome,
    node := (w.view.swayc.bind (find_container w.nodes)).map (fun c => { c with id := 0 }),
    others := container_view_destroy w.nodes w.view.swayc,
    unmanaged_views := w.unmanaged_views }

/-- An operation on a bound view: a lifecycle event of its surface or a call of
one of the five functions of its `iface`. -/
inductive Op where
  | event (e : Event)
  | get_prop (prop : sway_view_prop)
  | set_size (width height : Int)
  | set_position (ox oy : double)
  | set_activated (activated : Bool)
  | close
  deriving DecidableEq

/-- The operation is carried out. -/
def apply_op (w : World) : Op → World
  | Op.event e => step w e
  | Op.get_prop prop => (get_prop w prop).2
  | Op.set_size width height => set_size w width height
  | Op.set_position ox oy => set_position w ox oy
  | Op.set_activated activated => set_activated w activated
  | Op.close => close_view w

/-- The operations are carried out one after the other. -/
def run_ops (w : World) (ops : List Op) : World :=
  ops.foldl apply_op w

/-- The size of the most recent `set_size` among the operations, `cur` when
there is none. -/
def last_set_size (cur : Int × Int) : List Op → Int × Int
  | [] => cur
  | Op.set_size width height :: ops => last_set_size (width, height) ops
  | _ :: ops => last_set_size cur ops

/-- The size of the view: `view->width` and `view->height`. -/
def view_size (w : World) : Int × Int :=
  (w.view.width, w.view.height)

/-- The pending size of the binding. -/
def pending_size (w : World) : Int × Int :=
  (w.sway_surface.pending_width, w.sway_surface.pending_height)

/-! ## What the listeners do, field by field -/

theorem handle_map_unmanaged (w : World) (xsurface : wlr_xwayland_surface)
    (h : goes_unmanaged xsurface = true) :
    handle_map w xsurface =
      { w with
        unmanaged_views := w.view_ptr :: wl_list_remove w.unmanaged_views w.view_ptr,
        calls := w.calls ++ [Call.view_damage_whole w.view_ptr],
        view := { w.view with surface := xsurface.surface } } := by
  unfold goes_unmanaged at h
  simp [handle_map, h, World.call, wl_list_insert]

theorem handle_map_managed (w : World) (xsurface : wlr_xwayland_surface)
    (h : goes_unmanaged xsurface = false) :
    handle_map w xsurface =
      { w with
        nodes := (container_view_create (container_view_destroy w.nodes w.view.swayc)
          w.focus_inactive w.view_ptr).2,
        calls := w.calls ++ [Call.wlr_xwayland_surface_set_maximized true,
          Call.arrange_windows (some w.focus_inactive) (-1) (-1),
          Call.input_manager_set_focus
            (fresh_id (container_view_destroy w.nodes w.view.swayc)),
          Call.view_damage_whole w.view_ptr],
        view := { w.view with
          surface := xsurface.surface,
          swayc := some (fresh_id (container_view_destroy w.nodes w.view.swayc)) } } := by
  unfold goes_unmanaged at h
  simp [handle_map, h, World.call, container_view_create, seat_get_focus_inactive]

theorem handle_unmap_eq (w : World) :
    handle_unmap w =
      { w with
        unmanaged_views := wl_list_remove w.unmanaged_views w.view_ptr,
        nodes := container_view_destroy w.nodes w.view.swayc,
        calls := w.calls ++ [Call.view_damage_whole w.view_ptr],
        view := { w.view with swayc := none, surface := none } } := by
  simp [handle_unmap, World.call]

theorem handle_destroy_eq (w : World) :
    handle_destroy w =
      { w with
        unmanaged_views := wl_list_remove w.unmanaged_views w.view_ptr,
        nodes := container_view_destroy w.nodes w.view.swayc,
        listeners := wl_listener_remove (wl_listener_remove
          (wl_listener_remove w.listeners wl_listener.commit) wl_listener.destroy)
          wl_listener.request_configure,
        view := { w.view with swayc := none, surface := none } } := by
  simp [handle_destroy]

theorem handle_commit_eq (w : World) :
    handle_commit w =
      { w with
        calls := w.calls ++ [Call.view_damage_from w.view_ptr],
        view := { w.view with
          width := w.sway_surface.pending_width,
          height := w.sway_surface.pending_height } } := by
  simp [handle_commit, World.call]

theorem bind_bound (srv : Server) (xsurface : wlr_xwayland_surface)
    (sway_surface_alloc sway_view_alloc : Option Nat) (w : World)
    (h : handle_xwayland_surface srv xsurface sway_surface_alloc sway_view_alloc
      = BindResult.bound w) :
    ∃ view_ptr, sway_view_alloc = some view_ptr ∧ sway_surface_alloc.isSome = true ∧
      xsurface.surface.isSome = true ∧
      w = handle_map (bind_world srv xsurface view_ptr) xsurface := by
  unfold handle_xwayland_surface at h
  cases sway_surface_alloc with
  | none => simp at h
  | some a =>
    cases sway_view_alloc with
    | none => simp at h
    | some v =>
      cases hs : xsurface.surface with
      | none => simp [hs] at h
      | some s =>
        refine ⟨v, rfl, rfl, rfl, ?_⟩
        simp only [hs, wl_signal_add, List.append_assoc, List.singleton_append,
          BindResult.bound.injEq] at h
        rw [← h]
        simp [bind_world, hs]

theorem bind_succeeds (srv : Server) (xsurface : wlr_xwayland_surface)
    (a v s : Nat) (hs : xsurface.surface = some s) :
    handle_xwayland_surface srv xsurface (some a) (some v)
      = BindResult.bound (handle_map (bind_world srv xsurface v) xsurface) := by
  unfold handle_xwayland_surface
  simp [hs, wl_signal_add, bind_world]

/-! ## Lists, addresses and the tree -/

theorem wl_list_remove_not_mem (list : List Nat) (elm : Nat) :
    elm ∉ wl_list_remove list elm := by
  simp [wl_list_remove]

theorem wl_list_remove_of_not_mem (list : List Nat) (elm : Nat) (h : elm ∉ list) :
    wl_list_remove list elm = list := by
  unfold wl_list_remove
  rw [List.filter_eq_self]
  intro a ha
  have hne : a ≠ elm := fun e => h (e ▸ ha)
  simpa using hne

theorem id_lt_fresh_id (nodes : List sway_container) (c : sway_container) (h : c ∈ nodes) :
    c.id < fresh_id nodes := by
  unfold fresh_id
  induction nodes with
  | nil => cases h
  | cons d ds ih =>
    simp only [List.map_cons, List.foldr_cons]
    rcases List.mem_cons.mp h with rfl | h'
    · omega
    · have := ih h'
      omega

theorem destroy_fresh (nodes : List sway_container) :
    container_view_destroy nodes (some (fresh_id nodes)) = nodes := by
  unfold container_view_destroy
  simp only
  rw [List.filter_eq_self]
  intro c hc
  have := id_lt_fresh_id nodes c hc
  simp only [bne_iff_ne, ne_eq]
  omega

theorem container_view_destroy_none (nodes : List sway_container) :
    container_view_destroy nodes none = nodes := rfl

theorem destroy_created (nodes : List sway_container) (sibling view : Nat) :
    container_view_destroy (container_view_create nodes sibling view).2
      (some (fresh_id nodes)) = nodes := by
  unfold container_view_destroy container_view_create
  simp only [List.filter_append, List.filter_cons, List.filter_nil, bne_self_eq_false,
    Bool.false_eq_true, if_false, List.append_nil]
  exact destroy_fresh nodes

theorem find_created (nodes : List sway_container) (sibling view : Nat) :
    find_container (container_view_create nodes sibling view).2 (fresh_id nodes)
      = some (container_view_create nodes sibling view).1 := by
  unfold find_container container_view_create
  simp only [List.find?_append]
  have : List.find? (fun c => c.id == fresh_id nodes) nodes = none := by
    rw [List.find?_eq_none]
    intro c hc
    have := id_lt_fresh_id nodes c hc
    simp only [beq_iff_eq]
    omega
  simp [this]

theorem step_view_ptr (w : World) (e : Event) : (step w e).view_ptr = w.view_ptr := by
  cases e with
  | map xsurface =>
    cases h : goes_unmanaged xsurface
    · simp [step, handle_map_managed _ _ h]
    · simp [step, handle_map_unmanaged _ _ h]
  | unmap => simp [step, handle_unmap_eq]
  | commit => simp [step, handle_commit_eq]
  | request_configure ev => simp [step, handle_request_configure, World.call]
  | destroy => simp [step, handle_destroy_eq]

theorem run_view_ptr (w : World) (events : List Event) :
    (run w events).view_ptr = w.view_ptr := by
  induction events generalizing w with
  | nil => rfl
  | cons e es ih =>
    have := ih (step w e)
    simp only [run, List.foldl_cons] at this ⊢
    rw [this, step_view_ptr]

theorem run_cons (w : World) (e : Event) (events : List Event) :
    run w (e :: events) = run (step w e) events := rfl

/-- The invariant behind the mutual exclusion: a view last routed to the
unmanaged list has no container, a view last routed to the tree is not in the
unmanaged list, an unmapped view is in neither. -/
theorem step_keeps_registry (w : World) (cur : Option Bool) (e : Event)
    (hok : maps_agree cur [e] = true)
    (htree : cur ≠ some false → w.view.swayc = none)
    (hlist : cur ≠ some true → w.view_ptr ∉ w.unmanaged_views) :
    (registry_after_event cur e ≠ some false → (step w e).view.swayc = none) ∧
    (registry_after_event cur e ≠ some true →
      (step w e).view_ptr ∉ (step w e).unmanaged_views) := by
  cases e with
  | map xsurface =>
    cases h : goes_unmanaged xsurface
    · have hcur : cur ≠ some true := by
        intro hc
        simp [maps_agree, hc, h] at hok
      simp [step, registry_after_event, handle_map_managed _ _ h]
      exact ⟨h, fun _ => hlist hcur⟩
    · have hcur : cur ≠ some false := by
        intro hc
        simp [maps_agree, hc, h] at hok
      simp [step, registry_after_event, handle_map_unmanaged _ _ h]
      exact ⟨fun _ => htree hcur, h⟩
  | unmap =>
    simp [step, registry_after_event, handle_unmap_eq, wl_list_remove]
  | commit =>
    simp only [step, registry_after_event, handle_commit_eq]
    exact ⟨htree, hlist⟩
  | request_configure ev =>
    simp only [step, registry_after_event, handle_request_configure, World.call]
    exact ⟨htree, hlist⟩
  | destroy =>
    simp [step, registry_after_event, handle_destroy_eq, wl_list_remove]

theorem run_keeps_registry (events : List Event) (w : World) (cur : Option Bool)
    (hok : maps_agree cur events = true)
    (htree : cur ≠ some false → w.view.swayc = none)
    (hlist : cur ≠ some true → w.view_ptr ∉ w.unmanaged_views) :
    ¬ ((run w events).view.swayc.isSome = true ∧
       (run w events).view_ptr ∈ (run w events).unmanaged_views) := by
  induction events generalizing w cur with
  | nil =>
    rintro ⟨h1, h2⟩
    simp only [run, List.foldl_nil] at h1 h2
    cases cur with
    | none => exact hlist (by simp) h2
    | some r =>
      cases r
      · exact hlist (by simp) h2
      · rw [htree (by simp)] at h1
        simp at h1
  | cons e es ih =>
    rw [run_cons]
    have h1 : maps_agree cur [e] = true := by
      simp only [maps_agree, Bool.and_true, Bool.and_eq_true] at hok ⊢
      exact hok.1
    have h2 : maps_agree (registry_after_event cur e) es = true := by
      simp only [maps_agree, Bool.and_eq_true] at hok
      exact hok.2
    have hs := step_keeps_registry w cur e h1 htree hlist
    exact ih (step w e) (registry_after_event cur e) h2 hs.1 hs.2

theorem maps_agree_take (events : List Event) (cur : Option Bool) (n : Nat)
    (h : maps_agree cur events = true) : maps_agree cur (events.take n) = true := by
  induction events generalizing cur n with
  | nil => simp [maps_agree]
  | cons e es ih =>
    cases n with
    | zero => simp [maps_agree]
    | succ k =>
      simp only [List.take_succ_cons, maps_agree, Bool.and_eq_true] at h ⊢
      exact ⟨h.1, ih _ k h.2⟩

theorem wl_list_remove_twice (list : List Nat) (elm : Nat) :
    wl_list_remove (elm :: wl_list_remove list elm) elm = wl_list_remove list elm := by
  simp [wl_list_remove, List.filter_filter]

theorem wl_list_remove_idem (list : List Nat) (elm : Nat) :
    wl_list_remove (wl_list_remove list elm) elm = wl_list_remove list elm := by
  simp [wl_list_remove, List.filter_filter]

/-! ## C1: tree and unmanaged list at the same time -/

/-- C1, refuted as stated: `term_surface` is bound and mapped (not
override-redirect, so the view has a container), then a second map event
arrives with override-redirect set: `handle_map` links the view in the
unmanaged list and leaves `view->swayc` alone, so after that handler the view
is attached to a tree node and a member of the unmanaged list at the same
time. -/
theorem map_with_other_flag_attaches_to_both :
    ∃ w, handle_xwayland_surface example_server term_surface (some 200) (some 300)
        = BindResult.bound w ∧
      tree_attached (run w [Event.map term_surface, Event.map menu_surface]) = true ∧
      overlay_attached (run w [Event.map term_surface, Event.map menu_surface]) = true :=
  ⟨handle_map (bind_world example_server term_surface 300) term_surface,
    bind_succeeds example_server term_surface 200 300 100 rfl, by decide, by decide⟩

/-- C1, amended: for every binding whose freshly allocated view is not yet in
the unmanaged list, and every sequence of lifecycle events in which each map
event finds the view unmapped or last mapped (the map pass of the bind
included) with the same unmanaged/override-redirect answer, after each
handler (after every prefix of the sequence) the view is not both attached to
a tree node and a member of the unmanaged list.  `handle_map` itself removes
the view only from the registry it inserts into: the unmanaged branch leaves
`view->swayc` and the tree alone, the tree branch leaves the unmanaged list
alone. -/
theorem never_both_when_maps_agree (srv : Server) (xsurface : wlr_xwayland_surface)
    (sway_surface_alloc sway_view_alloc : Option Nat) (w : World) (events : List Event)
    (hbind : handle_xwayland_surface srv xsurface sway_surface_alloc sway_view_alloc
      = BindResult.bound w)
    (hfresh : w.view_ptr ∉ srv.unmanaged_views)
    (hok : maps_agree (some (goes_unmanaged xsurface)) events = true) :
    (∀ n, ¬ (tree_attached (run w (events.take n)) = true ∧
             overlay_attached (run w (events.take n)) = true)) ∧
    (∀ (w1 : World) (xs : wlr_xwayland_surface),
      if goes_unmanaged xs = true then
        (handle_map w1 xs).view.swayc = w1.view.swayc ∧ (handle_map w1 xs).nodes = w1.nodes
      else (handle_map w1 xs).unmanaged_views = w1.unmanaged_views) := by
  obtain ⟨v, -, -, -, hw⟩ := bind_bound srv xsurface _ _ w hbind
  constructor
  · intro n
    have hagree := maps_agree_take events _ n hok
    have hinv : (some (goes_unmanaged xsurface) ≠ some false → w.view.swayc = none) ∧
        (some (goes_unmanaged xsurface) ≠ some true → w.view_ptr ∉ w.unmanaged_views) := by
      cases h : goes_unmanaged xsurface
      · have hv : w.view_ptr = v := by rw [hw, handle_map_managed _ _ h]; rfl
        rw [hv] at hfresh
        rw [hw, handle_map_managed _ _ h]
        simpa [bind_world] using hfresh
      · rw [hw, handle_map_unmanaged _ _ h]
        simp [bind_world]
    have := run_keeps_registry (events.take n) w _ hagree hinv.1 hinv.2
    simpa [tree_attached, overlay_attached] using this
  · intro w1 xs
    cases h : goes_unmanaged xs
    · simp [handle_map_managed _ _ h]
    · simp [handle_map_unmanaged _ _ h]

/-- C1, amended, at a concrete input: `term_surface` bound, then unmapped and
mapped again as an override-redirect surface, then committed. -/
theorem never_both_when_maps_agree_witness :
    300 ∉ example_server.unmanaged_views ∧
    maps_agree (some (goes_unmanaged term_surface))
      [Event.unmap, Event.map menu_surface, Event.commit] = true ∧
    ¬ (tree_attached (run (handle_map (bind_world example_server term_surface 300)
          term_surface) ([Event.unmap, Event.map menu_surface, Event.commit].take 3)) = true ∧
        overlay_attached (run (handle_map (bind_world example_server term_surface 300)
          term_surface) ([Event.unmap, Event.map menu_surface, Event.commit].take 3)) = true) :=
  ⟨by decide, by decide,
    (never_both_when_maps_agree example_server term_surface (some 200) (some 300)
      (handle_map (bind_world example_server term_surface 300) term_surface)
      [Event.unmap, Event.map menu_surface, Event.commit]
      (bind_succeeds example_server term_surface 200 300 100 rfl) (by decide) (by decide)).1 3⟩

/-! ## C2: the listeners after destroy -/

/-- C2, evaluated at a bound surface: `handle_destroy` unlinks the commit,
destroy and request-configure listeners only; the unmap and map listeners
added by `handle_xwayland_surface` are still linked after it returns. -/
theorem destroy_leaves_unmap_and_map_listeners :
    ∃ w, handle_xwayland_surface example_server term_surface (some 200) (some 300)
        = BindResult.bound w ∧
      w.listeners = [wl_listener.commit, wl_listener.destroy, wl_listener.request_configure,
        wl_listener.unmap, wl_listener.map] ∧
      (handle_destroy w).listeners = [wl_listener.unmap, wl_listener.map] :=
  ⟨handle_map (bind_world example_server term_surface 300) term_surface,
    bind_succeeds example_server term_surface 200 300 100 rfl, by decide, by decide⟩

/-! ## C3: the two branches of `handle_map` -/

/-- C3: for every world and every map event, whatever the view was attached
to: when the surface is unmanaged or override-redirect the view is in the
unmanaged list afterwards (at its head), the tree and `view->swayc` are what
they were (no container was created) and the only call made is the damage
request; otherwise `view->swayc` is the container just created for this view,
which is in the tree, the unmanaged list is what it was, and the calls made
are the maximize, arrange, focus and damage requests.  Which of the two
happens is decided by `goes_unmanaged` of the surface alone. -/
theorem handle_map_runs_one_branch (w : World) (xsurface : wlr_xwayland_surface) :
    if goes_unmanaged xsurface = true then
      overlay_attached (handle_map w xsurface) = true ∧
      (handle_map w xsurface).unmanaged_views
        = w.view_ptr :: wl_list_remove w.unmanaged_views w.view_ptr ∧
      (handle_map w xsurface).nodes = w.nodes ∧
      (handle_map w xsurface).view.swayc = w.view.swayc ∧
      issued w.calls (handle_map w xsurface).calls = [Call.view_damage_whole w.view_ptr]
    else
      (∃ cont, container_view_create (container_view_destroy w.nodes w.view.swayc)
            (seat_get_focus_inactive w.toServer) w.view_ptr
          = (cont, (handle_map w xsurface).nodes) ∧
        (handle_map w xsurface).view.swayc = some cont.id ∧
        find_container (handle_map w xsurface).nodes cont.id = some cont ∧
        cont.sway_view = some w.view_ptr ∧
        cont.type = sway_container_type.C_VIEW ∧
        issued w.calls (handle_map w xsurface).calls
          = [Call.wlr_xwayland_surface_set_maximized true,
             Call.arrange_windows cont.parent (-1) (-1),
             Call.input_manager_set_focus cont.id,
             Call.view_damage_whole w.view_ptr]) ∧
      (handle_map w xsurface).unmanaged_views = w.unmanaged_views := by
  cases h : goes_unmanaged xsurface
  · rw [if_neg (by simp), handle_map_managed _ _ h]
    refine ⟨⟨(container_view_create (container_view_destroy w.nodes w.view.swayc)
      w.focus_inactive w.view_ptr).1, rfl, rfl, ?_, rfl, rfl, ?_⟩, rfl⟩
    · exact find_created _ _ _
    · simp [issued, container_view_create]
  · rw [if_pos rfl, handle_map_unmanaged _ _ h]
    refine ⟨?_, rfl, rfl, rfl, ?_⟩
    · simp [overlay_attached]
    · simp [issued]

/-! ## C4: bind, then one map event -/

/-- C4, refuted as stated: `tooltip_surface` is not mapped and has
override-redirect = false, but `wlr_xwayland_surface_is_unmanaged` answers
yes for it.  After the bind and one map event the tree is the tree before the
bind, without a new container, and the unmanaged list, empty before, holds
the view. -/
theorem bind_then_map_of_unmanaged_type :
    ∃ w, handle_xwayland_surface example_server tooltip_surface (some 200) (some 300)
        = BindResult.bound w ∧
      tooltip_surface.override_redirect = false ∧
      tooltip_surface.mapped = false ∧
      (step w (Event.map tooltip_surface)).nodes = example_server.nodes ∧
      example_server.unmanaged_views = [] ∧
      (step w (Event.map tooltip_surface)).unmanaged_views = [300] :=
  ⟨handle_map (bind_world example_server tooltip_surface 300) tooltip_surface,
    bind_succeeds example_server tooltip_surface 200 300 100 rfl,
    by decide, by decide, by decide, by decide, by decide⟩

/-- C4, amended: for every surface (mapped or not when it is announced) that is
bound successfully with a freshly allocated view and then receives one map
event with the same unmanaged/override-redirect answer: when the surface is
neither unmanaged nor override-redirect, the tree is the tree before the bind with
exactly one container added, the one of this view, and the unmanaged list is
the one before the bind; otherwise the unmanaged list is the one before the
bind with exactly one entry added, this view, and the tree is the one before
the bind. -/
theorem bind_then_map_adds_one (srv : Server) (xsurface xsurface1 : wlr_xwayland_surface)
    (sway_surface_alloc sway_view_alloc : Option Nat) (w : World)
    (hbind : handle_xwayland_surface srv xsurface sway_surface_alloc sway_view_alloc
      = BindResult.bound w)
    (hfresh : w.view_ptr ∉ srv.unmanaged_views)
    (hflag : goes_unmanaged xsurface1 = goes_unmanaged xsurface) :
    if goes_unmanaged xsurface = true then
      (step w (Event.map xsurface1)).unmanaged_views = w.view_ptr :: srv.unmanaged_views ∧
      (step w (Event.map xsurface1)).unmanaged_views.length
        = srv.unmanaged_views.length + 1 ∧
      (step w (Event.map xsurface1)).nodes = srv.nodes
    else
      (∃ cont, (step w (Event.map xsurface1)).nodes = srv.nodes ++ [cont] ∧
        cont.sway_view = some w.view_ptr ∧
        (step w (Event.map xsurface1)).view.swayc = some cont.id) ∧
      (step w (Event.map xsurface1)).nodes.length = srv.nodes.length + 1 ∧
      (step w (Event.map xsurface1)).unmanaged_views = srv.unmanaged_views := by
  obtain ⟨v, -, -, -, hw⟩ := bind_bound srv xsurface _ _ w hbind
  cases h : goes_unmanaged xsurface
  · have h1 : goes_unmanaged xsurface1 = false := by rw [hflag, h]
    have hd := destroy_created srv.nodes srv.focus_inactive v
    have hnodes : (step w (Event.map xsurface1)).nodes
        = (container_view_create srv.nodes srv.focus_inactive v).2 := by
      simp only [step, hw, handle_map_managed _ _ h, handle_map_managed _ _ h1, bind_world]
      rw [container_view_destroy_none]
      exact congrArg (fun l => (container_view_create l srv.focus_inactive v).2) hd
    have hswayc : (step w (Event.map xsurface1)).view.swayc = some (fresh_id srv.nodes) := by
      simp only [step, hw, handle_map_managed _ _ h, handle_map_managed _ _ h1, bind_world]
      rw [container_view_destroy_none]
      exact congrArg (fun l => some (fresh_id l)) hd
    have hlist : (step w (Event.map xsurface1)).unmanaged_views = srv.unmanaged_views := by
      simp only [step, hw, handle_map_managed _ _ h, handle_map_managed _ _ h1, bind_world]
    have hv : w.view_ptr = v := by rw [hw, handle_map_managed _ _ h]; rfl
    rw [if_neg (by simp), hnodes, hswayc, hlist, hv]
    refine ⟨⟨(container_view_create srv.nodes srv.focus_inactive v).1, rfl, rfl, rfl⟩, ?_, rfl⟩
    simp [container_view_create]
  · have h1 : goes_unmanaged xsurface1 = true := by rw [hflag, h]
    have hv : w.view_ptr = v := by rw [hw, handle_map_unmanaged _ _ h]; rfl
    rw [hv] at hfresh
    have hr := wl_list_remove_of_not_mem _ _ hfresh
    have hrr := wl_list_remove_twice srv.unmanaged_views v
    rw [hr] at hrr
    have hlist : (step w (Event.map xsurface1)).unmanaged_views = v :: srv.unmanaged_views := by
      simp only [step, hw, handle_map_unmanaged _ _ h, handle_map_unmanaged _ _ h1, bind_world,
        hr, hrr]
    have hnodes : (step w (Event.map xsurface1)).nodes = srv.nodes := by
      simp only [step, hw, handle_map_unmanaged _ _ h, handle_map_unmanaged _ _ h1, bind_world]
    rw [if_pos rfl, hlist, hnodes, hv]
    exact ⟨rfl, rfl, rfl⟩

/-- C4, amended, at a concrete input: `term_surface` (not mapped, not
unmanaged, not override-redirect)
is bound on `example_server` and then mapped: the tree has one container
more than before the bind and the unmanaged list is the one before it. -/
theorem bind_then_map_adds_one_witness :
    300 ∉ example_server.unmanaged_views ∧
    goes_unmanaged term_surface = goes_unmanaged term_surface ∧
    (step (handle_map (bind_world example_server term_surface 300) term_surface)
        (Event.map term_surface)).nodes.length = example_server.nodes.length + 1 ∧
    (step (handle_map (bind_world example_server term_surface 300) term_surface)
        (Event.map term_surface)).unmanaged_views = example_server.unmanaged_views := by
  have h := bind_then_map_adds_one example_server term_surface term_surface (some 200)
    (some 300) (handle_map (bind_world example_server term_surface 300) term_surface)
    (bind_succeeds example_server term_surface 200 300 100 rfl) (by decide) rfl
  rw [if_neg (by decide)] at h
  exact ⟨by decide, rfl, h.2.1, h.2.2⟩

/-! ## C5: map, unmap, map against a single map -/

/-- C5, refuted as stated: `menu_surface` is bound as an override-redirect
surface, so the view is in the unmanaged list; from that state, with the
surface now not override-redirect, a single map leaves the view in the
unmanaged list (and gives it a container), while map, unmap, map leaves the
unmanaged list empty. -/
theorem remap_differs_from_map_when_list_is_stale :
    ∃ w, handle_xwayland_surface example_server menu_surface (some 200) (some 300)
        = BindResult.bound w ∧
      (observe (run w [Event.map term_surface])).unmanaged_views = [300] ∧
      (observe (run w [Event.map term_surface, Event.unmap, Event.map term_surface])).unmanaged_views
        = [] ∧
      observe (run w [Event.map term_surface, Event.unmap, Event.map term_surface])
        ≠ observe (run w [Event.map term_surface]) :=
  ⟨handle_map (bind_world example_server menu_surface 300) menu_surface,
    bind_succeeds example_server menu_surface 200 300 100 rfl, by decide, by decide, by decide⟩

/-- C5, amended: for every bound view and every value of the
unmanaged/override-redirect answer kept over the map events, provided the
view is not attached to the other registry in the starting state (not in the
unmanaged list when the surface goes to the tree, no container when it goes to
the unmanaged list), the state reached by map, unmap, map and the state
reached by a single map from the same starting state have the same surface
reference, the same tree attachment up to the address of the container, the
same other containers and the same unmanaged list. -/
theorem remap_same_as_map (w : World) (xsurface1 xsurface2 : wlr_xwayland_surface)
    (hflag : goes_unmanaged xsurface1 = goes_unmanaged xsurface2)
    (hlist : goes_unmanaged xsurface2 = false → w.view_ptr ∉ w.unmanaged_views)
    (htree : goes_unmanaged xsurface2 = true → w.view.swayc = none) :
    observe (run w [Event.map xsurface1, Event.unmap, Event.map xsurface2])
      = observe (run w [Event.map xsurface2]) := by
  cases h2 : goes_unmanaged xsurface2
  · have h1 : goes_unmanaged xsurface1 = false := by rw [hflag, h2]
    have hr := wl_list_remove_of_not_mem _ _ (hlist h2)
    simp only [run, List.foldl_cons, List.foldl_nil, step, handle_map_managed _ _ h1,
      handle_map_managed _ _ h2, handle_unmap_eq, observe, destroy_created,
      container_view_destroy_none, hr]
  · have h1 : goes_unmanaged xsurface1 = true := by rw [hflag, h2]
    have hs := htree h2
    simp only [run, List.foldl_cons, List.foldl_nil, step, handle_map_unmanaged _ _ h1,
      handle_map_unmanaged _ _ h2, handle_unmap_eq, observe, hs,
      container_view_destroy_none, wl_list_remove_twice, wl_list_remove_idem]

/-- C5, amended, at a concrete input: `term_surface` freshly bound, then
mapped, unmapped and mapped again. -/
theorem remap_same_as_map_witness :
    observe (run (handle_map (bind_world example_server term_surface 300) term_surface)
        [Event.map term_surface, Event.unmap, Event.map term_surface])
      = observe (run (handle_map (bind_world example_server term_surface 300) term_surface)
        [Event.map term_surface]) :=
  remap_same_as_map (handle_map (bind_world example_server term_surface 300) term_surface)
    term_surface term_surface rfl (by decide) (by decide)

/-! ## C6 and C7: `set_position` -/

theorem container_parent_some (nodes : List sway_container) (container : Option Nat)
    (type : sway_container_type) (p : sway_container)
    (h : container_parent nodes container type = some p) :
    ∃ n c, container = some n ∧ find_container nodes n = some c := by
  unfold container_parent at h
  cases container with
  | none => simp at h
  | some n =>
    cases hc : find_container nodes n with
    | none => simp [hc] at h
    | some c => exact ⟨n, c, rfl, hc⟩

theorem find_set_container_position (nodes : List sway_container) (n : Nat)
    (c : sway_container) (ox oy : double) (h : find_container nodes n = some c) :
    find_container (set_container_position nodes (some n) ox oy) n
      = some { c with x := ox, y := oy } := by
  unfold find_container at *
  simp only [set_container_position]
  induction nodes with
  | nil => simp at h
  | cons d ds ih =>
    by_cases hd : d.id = n
    · simp only [List.find?_cons, hd, beq_self_eq_true, Option.some.injEq] at h
      subst h
      simp only [List.map_cons, hd, if_true, List.find?_cons, beq_self_eq_true]
    · have hb : (d.id == n) = false := by simpa using hd
      simp only [List.find?_cons, hb] at h
      simp only [List.map_cons, hd, if_false, List.find?_cons, hb]
      exact ih h

/-- C6: for every view (a legacy-compat view in particular) and every
(ox, oy): if the view has no container, or its container has no output
ancestor, or that output has no root ancestor, or the output is not in the
output layout of the root, then `set_position` only logs one failed
assertion: the view, the tree with the view's container, the surface record
and everything else are what they were, and no configure request is made. -/
theorem set_position_without_ancestry (w : World) (ox oy : double)
    (h : w.view.swayc = none ∨
      container_parent w.nodes w.view.swayc sway_container_type.C_OUTPUT = none ∨
      (∃ output,
        container_parent w.nodes w.view.swayc sway_container_type.C_OUTPUT = some output ∧
        container_parent w.nodes (some output.id) sway_container_type.C_ROOT = none) ∨
      (∃ output root,
        container_parent w.nodes w.view.swayc sway_container_type.C_OUTPUT = some output ∧
        container_parent w.nodes (some output.id) sway_container_type.C_ROOT = some root ∧
        wlr_output_layout_get root.output_layout output.wlr_output = none)) :
    (∃ msg, set_position w ox oy
      = { w with calls := w.calls ++ [Call.sway_assert_failed msg] }) ∧
    (set_position w ox oy).view = w.view ∧
    (set_position w ox oy).nodes = w.nodes ∧
    (issued w.calls (set_position w ox oy).calls).filter Call.is_configure = [] := by
  have key : ∃ msg, set_position w ox oy
      = { w with calls := w.calls ++ [Call.sway_assert_failed msg] } := by
    by_cases ht : w.view.type = sway_view_type.SWAY_XWAYLAND_VIEW
    · have hno : container_parent w.nodes none sway_container_type.C_OUTPUT = none := rfl
      rcases h with h | h | ⟨output, h1, h2⟩ | ⟨output, root, h1, h2, h3⟩
      · exact ⟨"view must be within tree to set position",
          by simp [set_position, assert_xwayland, sway_assert, ht, h, hno]⟩
      · exact ⟨"view must be within tree to set position",
          by simp [set_position, assert_xwayland, sway_assert, ht, h]⟩
      · exact ⟨"output must be within tree to set position",
          by simp [set_position, assert_xwayland, sway_assert, ht, h1, h2]⟩
      · exact ⟨"output must be within layout to set position",
          by simp [set_position, assert_xwayland, sway_assert, ht, h1, h2, h3]⟩
    · exact ⟨"Expected xwayland view!",
        by simp [set_position, assert_xwayland, sway_assert, ht]⟩
  obtain ⟨msg, hmsg⟩ := key
  refine ⟨⟨msg, hmsg⟩, ?_, ?_, ?_⟩
  · rw [hmsg]
  · rw [hmsg]
  · rw [hmsg]
    simp [issued, Call.is_configure]

/-- C6 at a concrete input: a view that was bound as an override-redirect
surface has no container; `set_position` changes neither the view nor the
tree and makes no configure request. -/
theorem set_position_without_ancestry_witness :
    (handle_map (bind_world example_server menu_surface 300) menu_surface).view.swayc = none ∧
    (set_position (handle_map (bind_world example_server menu_surface 300) menu_surface)
        (double.of_int 5) (double.of_int 7)).view
      = (handle_map (bind_world example_server menu_surface 300) menu_surface).view ∧
    (set_position (handle_map (bind_world example_server menu_surface 300) menu_surface)
        (double.of_int 5) (double.of_int 7)).nodes = example_nodes ∧
    (issued (handle_map (bind_world example_server menu_surface 300) menu_surface).calls
      (set_position (handle_map (bind_world example_server menu_surface 300) menu_surface)
        (double.of_int 5) (double.of_int 7)).calls).filter Call.is_configure = [] :=
  ⟨rfl,
    (set_position_without_ancestry
      (handle_map (bind_world example_server menu_surface 300) menu_surface)
      (double.of_int 5) (double.of_int 7) (Or.inl rfl)).2⟩

theorem int16_of_int_of_range (n : Int) (hlo : -32768 ≤ n) (hhi : n ≤ 32767) :
    int16_of_int n = n := by
  unfold int16_of_int
  omega

theorem uint16_of_int_of_range (n : Int) (hlo : 0 ≤ n) (hhi : n ≤ 65535) :
    uint16_of_int n = n := by
  unfold uint16_of_int
  omega

theorem double_round_of_short (m e : Int) (h : m.natAbs < 2 ^ 53) :
    double.round m e = double.finite m e := by
  unfold double.round
  simp only
  rw [if_pos h]

theorem int16_of_whole_sum (a n : Int) (hlo : -32768 ≤ a + n) (hhi : a + n ≤ 32767) :
    int16_of_double (double.add (double.of_int a) (double.of_int n)) = a + n := by
  have hsmall : (a + n).natAbs < 2 ^ 53 := by omega
  have hadd : double.add (double.of_int a) (double.of_int n) = double.round (a + n) 0 := by
    simp [double.add, double.of_int]
  have htrunc : trunc_finite (a + n) 0 = a + n := by
    simp [trunc_finite]
  rw [hadd, double_round_of_short _ _ hsmall]
  unfold int16_of_double
  simp only
  rw [htrunc, if_pos (by omega)]
  exact int16_of_int_of_range _ hlo hhi

/-- C7, refuted as stated: the view of `term_surface` sits under the output
at offset (1920, 0).  `set_position` to (10.75, 7) asks for position
(1930, 7), not for 10.75 + 1920 = 1930.75: the fraction is lost when the
double is passed as `int16_t`.  `set_position` to (40000, 7) asks for
position (-23616, 7), not for 40000 + 1920 = 41920, which no `int16_t`
holds. -/
theorem set_position_narrows_the_sum :
    issued (handle_map (bind_world example_server term_surface 300) term_surface).calls
      (set_position (handle_map (bind_world example_server term_surface 300) term_surface)
        (double.finite 43 (-2)) (double.of_int 7)).calls
      = [Call.wlr_xwayland_surface_configure 1930 7 800 600] ∧
    double.add (double.finite 43 (-2)) (double.of_int 1920) = double.finite 7723 (-2) ∧
    double.finite 7723 (-2) ≠ double.of_int 1930 ∧
    issued (handle_map (bind_world example_server term_surface 300) term_surface).calls
      (set_position (handle_map (bind_world example_server term_surface 300) term_surface)
        (double.of_int 40000) (double.of_int 7)).calls
      = [Call.wlr_xwayland_surface_configure (-23616) 7 800 600] ∧
    double.add (double.of_int 40000) (double.of_int 1920) = double.of_int 41920 ∧
    (41920 : Int) ≠ -23616 :=
  ⟨by decide, by decide, by decide, by decide, by decide, by decide⟩

/-- C7, amended: for every legacy-compat view whose container has an output
ancestor that has a root ancestor and is in the output layout of that root
with offset (`loutput.x`, `loutput.y`), `set_position` stores (ox, oy) in the
view's container and makes exactly one call, the configure request whose
position is what the `int16_t` parameters receive of the double sums
ox + `loutput.x` and oy + `loutput.y` (`int16_of_double`: the fraction
dropped, the low 16 bits kept) and whose width and height are those of the
surface; when ox and oy are whole numbers and both sums lie between -32768
and 32767, that position is exactly (ox + `loutput.x`, oy + `loutput.y`).
The view (its size included) and the pending size are unchanged. -/
theorem set_position_configures (w : World) (ox oy : double)
    (output root : sway_container) (loutput : wlr_output_layout_output)
    (htype : w.view.type = sway_view_type.SWAY_XWAYLAND_VIEW)
    (hout : container_parent w.nodes w.view.swayc sway_container_type.C_OUTPUT = some output)
    (hroot : container_parent w.nodes (some output.id) sway_container_type.C_ROOT = some root)
    (hlay : wlr_output_layout_get root.output_layout output.wlr_output = some loutput) :
    (∃ n c, w.view.swayc = some n ∧ find_container w.nodes n = some c ∧
      find_container (set_position w ox oy).nodes n = some { c with x := ox, y := oy }) ∧
    issued w.calls (set_position w ox oy).calls
      = [Call.wlr_xwayland_surface_configure
          (int16_of_double (double.add ox (double.of_int loutput.x)))
          (int16_of_double (double.add oy (double.of_int loutput.y)))
          w.xsurface.width w.xsurface.height] ∧
    (∀ a b : Int, ox = double.of_int a → oy = double.of_int b →
      -32768 ≤ a + loutput.x → a + loutput.x ≤ 32767 →
      -32768 ≤ b + loutput.y → b + loutput.y ≤ 32767 →
      issued w.calls (set_position w ox oy).calls
        = [Call.wlr_xwayland_surface_configure (a + loutput.x) (b + loutput.y)
            w.xsurface.width w.xsurface.height]) ∧
    (set_position w ox oy).view = w.view ∧
    (set_position w ox oy).sway_surface = w.sway_surface := by
  have heq : set_position w ox oy =
      { w with
        nodes := set_container_position w.nodes w.view.swayc ox oy,
        calls := w.calls ++ [Call.wlr_xwayland_surface_configure
          (int16_of_double (double.add ox (double.of_int loutput.x)))
          (int16_of_double (double.add oy (double.of_int loutput.y)))
          w.xsurface.width w.xsurface.height] } := by
    simp [set_position, assert_xwayland, sway_assert, htype, hout, hroot, hlay, World.call]
  have hcalls : issued w.calls (set_position w ox oy).calls
      = [Call.wlr_xwayland_surface_configure
          (int16_of_double (double.add ox (double.of_int loutput.x)))
          (int16_of_double (double.add oy (double.of_int loutput.y)))
          w.xsurface.width w.xsurface.height] := by
    rw [heq]
    simp [issued]
  obtain ⟨n, c, hn, hc⟩ := container_parent_some _ _ _ _ hout
  refine ⟨⟨n, c, hn, hc, ?_⟩, hcalls, ?_, ?_, ?_⟩
  · rw [heq, hn]
    exact find_set_container_position _ _ _ _ _ hc
  · intro a b ha hb hxl hxh hyl hyh
    rw [hcalls, ha, hb, int16_of_whole_sum a _ hxl hxh, int16_of_whole_sum b _ hyl hyh]
  · rw [heq]
  · rw [heq]

/-- C7, amended, at a concrete input: the view of `term_surface`, bound on
`example_server`, sits on the workspace of the output at offset (1920, 0);
`set_position` to (5, 7) asks the surface for position (1925, 7) with its
size of 800 x 600. -/
theorem set_position_configures_witness :
    issued (handle_map (bind_world example_server term_surface 300) term_surface).calls
      (set_position (handle_map (bind_world example_server term_surface 300) term_surface)
        (double.of_int 5) (double.of_int 7)).calls
      = [Call.wlr_xwayland_surface_configure 1925 7 800 600] :=
  (set_position_configures
    (handle_map (bind_world example_server term_surface 300) term_surface)
    (double.of_int 5) (double.of_int 7)
    example_output example_root { output := 10, x := 1920, y := 0 }
    rfl (by decide) (by decide) (by decide)).2.2.1 5 7 rfl rfl
    (by decide) (by decide) (by decide) (by decide)

/-! ## C8: the size taken at commit -/

/-- C8, refuted as stated: `term_surface` is bound, the compositor asks for
640 x 480 through `set_size`, and the surface commits while it reports
800 x 600: after `handle_commit` the size of the view is 640 x 480, the
requested size, not the reported one. -/
theorem commit_takes_requested_size :
    ∃ w, handle_xwayland_surface example_server term_surface (some 200) (some 300)
        = BindResult.bound w ∧
      (set_size w 640 480).xsurface.width = 800 ∧
      (set_size w 640 480).xsurface.height = 600 ∧
      (handle_commit (set_size w 640 480)).view.width = 640 ∧
      (handle_commit (set_size w 640 480)).view.height = 480 ∧
      ((handle_commit (set_size w 640 480)).view.width,
        (handle_commit (set_size w 640 480)).view.height) ≠ ((800 : Int), (600 : Int)) :=
  ⟨handle_map (bind_world example_server term_surface 300) term_surface,
    bind_succeeds example_server term_surface 200 300 100 rfl,
    by decide, by decide, by decide, by decide, by decide⟩

/-- C8, amended: for every view and every commit, whatever width and height
the backing surface reports, after `handle_commit` the size of the view is
the pending size of the binding, and exactly one call is made, the
incremental-damage request for this view; for a legacy-compat view the
pending size is the size last requested through `set_size`, so a commit after
`set_size` (a, b) gives the view the size (a, b). -/
theorem commit_takes_pending_size (w : World) (reported : wlr_xwayland_surface)
    (a b : Int) (htype : w.view.type = sway_view_type.SWAY_XWAYLAND_VIEW) :
    (handle_commit { w with xsurface := reported }).view.width
      = w.sway_surface.pending_width ∧
    (handle_commit { w with xsurface := reported }).view.height
      = w.sway_surface.pending_height ∧
    issued w.calls (handle_commit { w with xsurface := reported }).calls
      = [Call.view_damage_from w.view_ptr] ∧
    (handle_commit { set_size w a b with xsurface := reported }).view.width = a ∧
    (handle_commit { set_size w a b with xsurface := reported }).view.height = b := by
  have hs : (set_size w a b).sway_surface = { pending_width := a, pending_height := b } := by
    simp [set_size, assert_xwayland, sway_assert, htype, World.call]
  refine ⟨?_, ?_, ?_, ?_, ?_⟩
  · simp [handle_commit_eq]
  · simp [handle_commit_eq]
  · simp [handle_commit_eq, issued]
  · simp [handle_commit_eq, hs]
  · simp [handle_commit_eq, hs]

/-- C8, amended, at a concrete input: the view of `term_surface` after
`set_size` 640 x 480, committing while the surface reports 800 x 600. -/
theorem commit_takes_pending_size_witness :
    (handle_commit { set_size (handle_map (bind_world example_server term_surface 300)
        term_surface) 640 480 with xsurface := term_surface }).view.width = 640 ∧
    (handle_commit { set_size (handle_map (bind_world example_server term_surface 300)
        term_surface) 640 480 with xsurface := term_surface }).view.height = 480 :=
  (commit_takes_pending_size
    (handle_map (bind_world example_server term_surface 300) term_surface) term_surface
    640 480 rfl).2.2.2

/-! ## C9: the surface reference -/

theorem step_surface (w : World) (e : Event) :
    (step w e).view.surface =
      match e with
      | Event.map xsurface => xsurface.surface
      | Event.unmap => none
      | Event.destroy => none
      | _ => w.view.surface := by
  cases e with
  | map xsurface =>
    cases h : goes_unmanaged xsurface
    · simp [step, handle_map_managed _ _ h]
    · simp [step, handle_map_unmanaged _ _ h]
  | unmap => simp [step, handle_unmap_eq]
  | commit => simp [step, handle_commit_eq]
  | request_configure ev => simp [step, handle_request_configure, World.call]
  | destroy => simp [step, handle_destroy_eq]

theorem run_surface (events : List Event) (w : World) (cur : Bool)
    (hcur : w.view.surface.isSome = cur) (hmaps : maps_have_surface events = true) :
    (run w events).view.surface.isSome = mapped_after cur events := by
  induction events generalizing w cur with
  | nil => simpa [run, mapped_after] using hcur
  | cons e es ih =>
    rw [run_cons]
    have hs := step_surface w e
    cases e with
    | map xsurface =>
      simp only [maps_have_surface, Bool.and_eq_true] at hmaps
      simp only [mapped_after]
      exact ih _ true (by rw [hs]; exact hmaps.1) hmaps.2
    | unmap =>
      simp only [maps_have_surface] at hmaps
      simp only [mapped_after]
      exact ih _ false (by rw [hs]; rfl) hmaps
    | commit =>
      simp only [maps_have_surface] at hmaps
      simp only [mapped_after]
      exact ih _ cur (by rw [hs]; exact hcur) hmaps
    | request_configure ev =>
      simp only [maps_have_surface] at hmaps
      simp only [mapped_after]
      exact ih _ cur (by rw [hs]; exact hcur) hmaps
    | destroy =>
      simp only [maps_have_surface] at hmaps
      simp only [mapped_after]
      exact ih _ false (by rw [hs]; rfl) hmaps

theorem maps_have_surface_take (events : List Event) (n : Nat)
    (h : maps_have_surface events = true) : maps_have_surface (events.take n) = true := by
  induction events generalizing n with
  | nil => simp [maps_have_surface]
  | cons e es ih =>
    cases n with
    | zero => simp [maps_have_surface]
    | succ k =>
      cases e with
      | map xsurface =>
        simp only [List.take_succ_cons, maps_have_surface, Bool.and_eq_true] at h ⊢
        exact ⟨h.1, ih k h.2⟩
      | unmap => simpa only [List.take_succ_cons, maps_have_surface] using ih k h
      | commit => simpa only [List.take_succ_cons, maps_have_surface] using ih k h
      | request_configure ev =>
        simpa only [List.take_succ_cons, maps_have_surface] using ih k h
      | destroy => simpa only [List.take_succ_cons, maps_have_surface] using ih k h

/-- C9, refuted as stated: `term_surface` is not mapped when it is announced
and no map event has arrived, yet right after the bind `view->surface` is the
surface's `wlr_surface`, not NULL: `handle_xwayland_surface` ends with a call
of `handle_map`. -/
theorem surface_set_after_bind_of_unmapped :
    ∃ w, handle_xwayland_surface example_server term_surface (some 200) (some 300)
        = BindResult.bound w ∧
      term_surface.mapped = false ∧
      mapped_after term_surface.mapped [] = false ∧
      (run w []).view.surface = some 100 ∧
      (run w []).view.surface.isSome ≠ mapped_after term_surface.mapped [] :=
  ⟨handle_map (bind_world example_server term_surface 300) term_surface,
    bind_succeeds example_server term_surface 200 300 100 rfl,
    by decide, by decide, by decide, by decide⟩

/-- C9, amended: for every binding and every sequence of lifecycle events
whose map events carry a `wlr_surface`, after each handler (after every
prefix of the sequence) `view->surface` is not NULL if and only if the last
of the map passes, unmaps and destroys so far was a map pass, where the bind
itself counts as a map pass because it ends with a call of `handle_map`:
the reference follows the events as if the surface had been mapped when it
was announced.  In particular `view->surface` is not NULL right after the
bind, whether or not the surface was mapped then. -/
theorem surface_follows_map_passes (srv : Server) (xsurface : wlr_xwayland_surface)
    (sway_surface_alloc sway_view_alloc : Option Nat) (w : World) (events : List Event)
    (hbind : handle_xwayland_surface srv xsurface sway_surface_alloc sway_view_alloc
      = BindResult.bound w)
    (hmaps : maps_have_surface events = true) :
    (∀ n, (run w (events.take n)).view.surface.isSome
      = mapped_after true (events.take n)) ∧
    w.view.surface.isSome = true := by
  obtain ⟨v, -, -, hsurf, hw⟩ := bind_bound srv xsurface _ _ w hbind
  have h0 : w.view.surface.isSome = true := by
    have := step_surface (bind_world srv xsurface v) (Event.map xsurface)
    simp only [step] at this
    have hx : ({ bind_world srv xsurface v with xsurface := xsurface } : World)
        = bind_world srv xsurface v := rfl
    rw [hx, ← hw] at this
    rw [this]
    exact hsurf
  exact ⟨fun n => run_surface _ w true h0 (maps_have_surface_take events n hmaps), h0⟩

/-- C9, amended, at a concrete input: `term_surface` bound, committed,
unmapped and mapped again. -/
theorem surface_follows_map_passes_witness :
    maps_have_surface [Event.commit, Event.unmap, Event.map term_surface] = true ∧
    (run (handle_map (bind_world example_server term_surface 300) term_surface)
      ([Event.commit, Event.unmap, Event.map term_surface].take 2)).view.surface.isSome
      = mapped_after true ([Event.commit, Event.unmap, Event.map term_surface].take 2) :=
  ⟨by decide,
    (surface_follows_map_passes example_server term_surface (some 200) (some 300)
      (handle_map (bind_world example_server term_surface 300) term_surface)
      [Event.commit, Event.unmap, Event.map term_surface]
      (bind_succeeds example_server term_surface 200 300 100 rfl) (by decide)).1 2⟩

/-! ## C10: the map pass of the bind -/

/-- C10, refuted as stated: `term_surface` is not mapped when it is announced;
after the bind its view has a container, the tree has one container more than
before, and an arrangement and a focus request were made. -/
theorem bind_of_unmapped_runs_map_pass :
    ∃ w, handle_xwayland_surface example_server term_surface (some 200) (some 300)
        = BindResult.bound w ∧
      term_surface.mapped = false ∧
      tree_attached w = true ∧
      w.nodes.length = example_server.nodes.length + 1 ∧
      w.nodes ≠ example_server.nodes ∧
      Call.arrange_windows (some 3) (-1) (-1) ∈ w.calls ∧
      Call.input_manager_set_focus 4 ∈ w.calls :=
  ⟨handle_map (bind_world example_server term_surface 300) term_surface,
    bind_succeeds example_server term_surface 200 300 100 rfl,
    by decide, by decide, by decide, by decide, by decide, by decide⟩

/-- C10, amended: a successful bind always runs the map path, whether or not
the surface is mapped when it is announced (the `mapped` field is not looked
at): for a surface that is neither unmanaged nor override-redirect the tree
is the tree before the bind with one container added, the view's, the
unmanaged list is the one before the bind, and the calls made are the log
line and the maximize, arrange, focus and damage requests; for an unmanaged
or override-redirect surface the view is put at the head of the unmanaged
list, the tree is the one before the bind, the view has no container and the
calls made are the log line and the damage request. -/
theorem bind_always_runs_map_pass (srv : Server) (xsurface : wlr_xwayland_surface)
    (sway_surface_alloc sway_view_alloc : Option Nat) (w : World)
    (hbind : handle_xwayland_surface srv xsurface sway_surface_alloc sway_view_alloc
      = BindResult.bound w) :
    w = handle_map (bind_world srv xsurface w.view_ptr) xsurface ∧
    handle_xwayland_surface srv { xsurface with mapped := !xsurface.mapped }
        sway_surface_alloc sway_view_alloc
      = BindResult.bound
          { w with xsurface := { xsurface with mapped := !xsurface.mapped } } ∧
    if goes_unmanaged xsurface = true then
      w.unmanaged_views = w.view_ptr :: wl_list_remove srv.unmanaged_views w.view_ptr ∧
      w.nodes = srv.nodes ∧
      w.view.swayc = none ∧
      issued srv.calls w.calls
        = [Call.wlr_log "New xwayland surface", Call.view_damage_whole w.view_ptr]
    else
      (∃ cont, w.nodes = srv.nodes ++ [cont] ∧
        w.view.swayc = some cont.id ∧
        cont.sway_view = some w.view_ptr ∧
        issued srv.calls w.calls
          = [Call.wlr_log "New xwayland surface",
             Call.wlr_xwayland_surface_set_maximized true,
             Call.arrange_windows cont.parent (-1) (-1),
             Call.input_manager_set_focus cont.id,
             Call.view_damage_whole w.view_ptr]) ∧
      w.unmanaged_views = srv.unmanaged_views := by
  obtain ⟨v, hv, ha, hsurf, hw⟩ := bind_bound srv xsurface _ _ w hbind
  obtain ⟨a, rfl⟩ := Option.isSome_iff_exists.mp ha
  obtain ⟨s, hs⟩ := Option.isSome_iff_exists.mp hsurf
  subst hv
  have hflip : goes_unmanaged { xsurface with mapped := !xsurface.mapped }
      = goes_unmanaged xsurface := rfl
  cases h : goes_unmanaged xsurface
  · have h1 : goes_unmanaged { xsurface with mapped := !xsurface.mapped } = false := by
      rw [hflip, h]
    refine ⟨?_, ?_, ?_⟩
    · have hp : w.view_ptr = v := by rw [hw, handle_map_managed _ _ h]; rfl
      rw [hp]
      exact hw
    · rw [bind_succeeds srv _ a v s (by simpa using hs), hw, handle_map_managed _ _ h,
        handle_map_managed _ _ h1]
      simp [bind_world]
    · rw [if_neg (by simp), hw, handle_map_managed _ _ h]
      refine ⟨⟨(container_view_create srv.nodes srv.focus_inactive v).1, rfl, rfl, rfl, ?_⟩, rfl⟩
      simp [issued, bind_world, container_view_create, container_view_destroy]
  · have h1 : goes_unmanaged { xsurface with mapped := !xsurface.mapped } = true := by
      rw [hflip, h]
    refine ⟨?_, ?_, ?_⟩
    · have hp : w.view_ptr = v := by rw [hw, handle_map_unmanaged _ _ h]; rfl
      rw [hp]
      exact hw
    · rw [bind_succeeds srv _ a v s (by simpa using hs), hw, handle_map_unmanaged _ _ h,
        handle_map_unmanaged _ _ h1]
      simp [bind_world]
    · rw [if_pos rfl, hw, handle_map_unmanaged _ _ h]
      refine ⟨rfl, rfl, rfl, ?_⟩
      simp [issued, bind_world]

/-- C10, amended, at a concrete input: `term_surface`, not mapped when it is
announced, is bound on `example_server`: the tree gets the container of the
view and the unmanaged list stays empty. -/
theorem bind_always_runs_map_pass_witness :
    term_surface.mapped = false ∧
    (∃ cont, (handle_map (bind_world example_server term_surface 300) term_surface).nodes
        = example_nodes ++ [cont] ∧
      (handle_map (bind_world example_server term_surface 300) term_surface).view.swayc
        = some cont.id) ∧
    (handle_map (bind_world example_server term_surface 300) term_surface).unmanaged_views
      = [] := by
  have h := (bind_always_runs_map_pass example_server term_surface (some 200) (some 300)
    (handle_map (bind_world example_server term_surface 300) term_surface)
    (bind_succeeds example_server term_surface 200 300 100 rfl)).2.2
  rw [if_neg (by decide)] at h
  obtain ⟨⟨cont, h1, h2, -, -⟩, h3⟩ := h
  exact ⟨rfl, ⟨cont, h1, h2⟩, h3⟩

/-! ## C11: a failed allocation -/

/-- C11: if the `calloc` of the surface record or the `calloc` of the view
fails, `handle_xwayland_surface` returns without a binding: the listeners on
the signals of the surface, the tree, the unmanaged list and the focus are
what they were before the call; only log lines were written. -/
theorem bind_alloc_failure_registers_nothing (srv : Server)
    (xsurface : wlr_xwayland_surface) (sway_surface_alloc sway_view_alloc : Option Nat)
    (hfail : sway_surface_alloc = none ∨ sway_view_alloc = none) :
    ∃ srv1, handle_xwayland_surface srv xsurface sway_surface_alloc sway_view_alloc
        = BindResult.returned srv1 ∧
      srv1.listeners = srv.listeners ∧
      srv1.nodes = srv.nodes ∧
      srv1.unmanaged_views = srv.unmanaged_views ∧
      srv1.focus_inactive = srv.focus_inactive ∧
      (∀ c ∈ issued srv.calls srv1.calls,
        ∃ msg, c = Call.wlr_log msg ∨ c = Call.sway_assert_failed msg) := by
  cases sway_surface_alloc with
  | none =>
    refine ⟨_, rfl, rfl, rfl, rfl, rfl, ?_⟩
    intro c hc
    simp [issued, sway_assert] at hc
    rcases hc with rfl | rfl
    · exact ⟨_, Or.inl rfl⟩
    · exact ⟨_, Or.inr rfl⟩
  | some a =>
    cases sway_view_alloc with
    | none =>
      refine ⟨_, rfl, rfl, rfl, rfl, rfl, ?_⟩
      intro c hc
      simp [issued, sway_assert] at hc
      rcases hc with rfl | rfl
      · exact ⟨_, Or.inl rfl⟩
      · exact ⟨_, Or.inr rfl⟩
    | some v => simp at hfail

/-- C11 at a concrete input: the surface record is allocated, the view is not;
nothing is linked and the registries of `example_server` are untouched. -/
theorem bind_alloc_failure_registers_nothing_witness :
    ∃ srv1, handle_xwayland_surface example_server term_surface (some 200) none
        = BindResult.returned srv1 ∧
      srv1.listeners = [] ∧
      srv1.nodes = example_nodes ∧
      srv1.unmanaged_views = [] := by
  obtain ⟨srv1, h, h1, h2, h3, -, -⟩ :=
    bind_alloc_failure_registers_nothing example_server term_surface (some 200) none
      (Or.inr rfl)
  exact ⟨srv1, h, h1, h2, h3⟩

/-! ## C12: a view of another type -/

/-- C12: for every view whose type is not `SWAY_XWAYLAND_VIEW`, `get_prop`
answers NULL for every property, and `get_prop`, `set_size`, `set_position`,
`set_activated` and `close_view` leave the view, the surface record, the tree
and everything else as they were: the only call each makes is the log of the
failed assertion, none goes to a surface. -/
theorem other_view_type_is_rejected (w : World)
    (htype : w.view.type ≠ sway_view_type.SWAY_XWAYLAND_VIEW)
    (prop : sway_view_prop) (width height : Int) (ox oy : double) (activated : Bool) :
    (get_prop w prop).1 = none ∧
    (get_prop w prop).2
      = { w with calls := w.calls ++ [Call.sway_assert_failed "Expected xwayland view!"] } ∧
    set_size w width height
      = { w with calls := w.calls ++ [Call.sway_assert_failed "Expected xwayland view!"] } ∧
    set_position w ox oy
      = { w with calls := w.calls ++ [Call.sway_assert_failed "Expected xwayland view!"] } ∧
    set_activated w activated
      = { w with calls := w.calls ++ [Call.sway_assert_failed "Expected xwayland view!"] } ∧
    close_view w
      = { w with calls := w.calls ++ [Call.sway_assert_failed "Expected xwayland view!"] } := by
  refine ⟨?_, ?_, ?_, ?_, ?_, ?_⟩ <;>
    simp [get_prop, set_size, set_position, set_activated, close_view, assert_xwayland,
      sway_assert, htype]

/-- C12 at a concrete input: the world of `term_surface` with the type of the
view changed to `SWAY_WL_SHELL_VIEW`; `get_prop` of the title answers NULL and
`set_size` stores nothing. -/
theorem other_view_type_is_rejected_witness :
    (get_prop { bind_world example_server term_surface 300 with
        view := { (bind_world example_server term_surface 300).view with
          type := sway_view_type.SWAY_WL_SHELL_VIEW } }
      sway_view_prop.VIEW_PROP_TITLE).1 = none ∧
    (set_size { bind_world example_server term_surface 300 with
        view := { (bind_world example_server term_surface 300).view with
          type := sway_view_type.SWAY_WL_SHELL_VIEW } } 640 480).sway_surface
      = { pending_width := 0, pending_height := 0 } := by
  have h := other_view_type_is_rejected
    { bind_world example_server term_surface 300 with
      view := { (bind_world example_server term_surface 300).view with
        type := sway_view_type.SWAY_WL_SHELL_VIEW } }
    (by decide) sway_view_prop.VIEW_PROP_TITLE 640 480 (double.of_int 0) (double.of_int 0) true
  refine ⟨h.1, ?_⟩
  rw [h.2.2.1]
  rfl

/-! ## C13: what destroy detaches -/

theorem find_destroyed (nodes : List sway_container) (n : Nat) :
    find_container (container_view_destroy nodes (some n)) n = none := by
  unfold find_container container_view_destroy
  simp only
  rw [List.find?_eq_none]
  intro c hc
  have := (List.mem_filter.mp hc).2
  simpa using this

/-- C13, refuted as stated: `term_surface` is bound and mapped, then mapped
again with override-redirect set, so its view has a container and is in the
unmanaged list; the destroy event arrives while the view is tree-attached and
the unmanaged list changes from the list with this view to the empty list. -/
theorem destroy_of_tree_attached_changes_list :
    ∃ w, handle_xwayland_surface example_server term_surface (some 200) (some 300)
        = BindResult.bound w ∧
      tree_attached (run w [Event.map term_surface, Event.map menu_surface]) = true ∧
      (run w [Event.map term_surface, Event.map menu_surface]).unmanaged_views = [300] ∧
      (handle_destroy (run w [Event.map term_surface, Event.map menu_surface])).unmanaged_views
        = [] :=
  ⟨handle_map (bind_world example_server term_surface 300) term_surface,
    bind_succeeds example_server term_surface 200 300 100 rfl, by decide, by decide, by decide⟩

/-- C13, amended: for every binding state, after `handle_destroy` the view has
no container (`view->swayc` is NULL and the tree holds no container with the
address it had), is not in the unmanaged list and has a NULL surface
reference; the unmanaged list afterwards is the list before without this
view, so the entries of all other views keep their membership and order; and
when the destroy arrives while the view is not in the unmanaged list (so for
a tree-attached view that is not also linked there), the unmanaged list is
exactly what it was before. -/
theorem destroy_detaches (w : World) :
    (handle_destroy w).view.swayc = none ∧
    (∀ n, w.view.swayc = some n → find_container (handle_destroy w).nodes n = none) ∧
    w.view_ptr ∉ (handle_destroy w).unmanaged_views ∧
    (handle_destroy w).view.surface = none ∧
    (handle_destroy w).unmanaged_views
      = w.unmanaged_views.filter (fun e => e != w.view_ptr) ∧
    (overlay_attached w = false → (handle_destroy w).unmanaged_views = w.unmanaged_views) := by
  rw [handle_destroy_eq]
  refine ⟨rfl, ?_, ?_, rfl, rfl, ?_⟩
  · intro n hn
    simp only [hn]
    exact find_destroyed _ _
  · exact wl_list_remove_not_mem _ _
  · intro h
    simp only [overlay_attached, List.contains_eq_any_beq, List.any_eq_false, beq_iff_eq] at h
    apply wl_list_remove_of_not_mem
    intro hm
    exact h _ hm rfl

/-- C13, amended, at a concrete input: the destroy event arrives for the view
of `term_surface` right after the bind, while it has its container and is
not in the unmanaged list. -/
theorem destroy_detaches_witness :
    tree_attached (handle_map (bind_world example_server term_surface 300) term_surface)
      = true ∧
    overlay_attached (handle_map (bind_world example_server term_surface 300) term_surface)
      = false ∧
    (handle_destroy (handle_map (bind_world example_server term_surface 300)
      term_surface)).view.swayc = none ∧
    (handle_destroy (handle_map (bind_world example_server term_surface 300)
      term_surface)).unmanaged_views = [] :=
  ⟨by decide, by decide,
    (destroy_detaches (handle_map (bind_world example_server term_surface 300)
      term_surface)).1,
    (destroy_detaches (handle_map (bind_world example_server term_surface 300)
      term_surface)).2.2.2.2.2 (by decide)⟩

/-! ## C14: calls on the view after destroy -/

theorem set_size_eq (w : World) (width height : Int)
    (htype : w.view.type = sway_view_type.SWAY_XWAYLAND_VIEW) :
    set_size w width height =
      { w with
        calls := w.calls ++ [Call.wlr_xwayland_surface_configure w.xsurface.x w.xsurface.y
          (uint16_of_int width) (uint16_of_int height)],
        sway_surface := { pending_width := width, pending_height := height } } := by
  simp [set_size, assert_xwayland, sway_assert, htype, World.call]

/-- C14, refuted as stated: `term_surface` is bound and destroyed; afterwards
`get_prop` still answers the title "Term", and `set_size` still stores the
pending size and asks the surface to configure itself: the calls are not
rejected. -/
theorem calls_after_destroy_are_served :
    ∃ w, handle_xwayland_surface example_server term_surface (some 200) (some 300)
        = BindResult.bound w ∧
      (get_prop (handle_destroy w) sway_view_prop.VIEW_PROP_TITLE).1 = some "Term" ∧
      issued (handle_destroy w).calls (set_size (handle_destroy w) 640 480).calls
        = [Call.wlr_xwayland_surface_configure 0 0 640 480] ∧
      (set_size (handle_destroy w) 640 480).sway_surface
        = { pending_width := 640, pending_height := 480 } :=
  ⟨handle_map (bind_world example_server term_surface 300) term_surface,
    bind_succeeds example_server term_surface 200 300 100 rfl, by decide, by decide, by decide⟩

/-- C14, amended: `handle_destroy` leaves the type of the view as it is, so for
every legacy-compat binding on which it has run only `set_position` is
rejected afterwards (the view has no container: one failed assertion is
logged, nothing else changes); `get_prop` still answers the title and the
class of the surface, `set_size` still stores the pending size and makes its
configure request, `set_activated` and `close_view` still make their
requests. -/
theorem after_destroy_only_set_position_is_rejected (w : World)
    (htype : w.view.type = sway_view_type.SWAY_XWAYLAND_VIEW)
    (width height : Int) (ox oy : double) (activated : Bool) :
    (handle_destroy w).view.type = sway_view_type.SWAY_XWAYLAND_VIEW ∧
    set_position (handle_destroy w) ox oy
      = { handle_destroy w with
          calls := (handle_destroy w).calls
            ++ [Call.sway_assert_failed "view must be within tree to set position"] } ∧
    (get_prop (handle_destroy w) sway_view_prop.VIEW_PROP_TITLE).1 = w.xsurface.title ∧
    (get_prop (handle_destroy w) sway_view_prop.VIEW_PROP_CLASS).1 = w.xsurface.class_ ∧
    pending_size (set_size (handle_destroy w) width height) = (width, height) ∧
    issued (handle_destroy w).calls (set_size (handle_destroy w) width height).calls
      = [Call.wlr_xwayland_surface_configure w.xsurface.x w.xsurface.y
          (uint16_of_int width) (uint16_of_int height)] ∧
    issued (handle_destroy w).calls (set_activated (handle_destroy w) activated).calls
      = [Call.wlr_xwayland_surface_activate activated] ∧
    issued (handle_destroy w).calls (close_view (handle_destroy w)).calls
      = [Call.wlr_xwayland_surface_close] := by
  have ht : (handle_destroy w).view.type = sway_view_type.SWAY_XWAYLAND_VIEW := by
    rw [handle_destroy_eq]
    exact htype
  have hc : (handle_destroy w).view.swayc = none := by
    rw [handle_destroy_eq]
  have hx : (handle_destroy w).xsurface = w.xsurface := by
    rw [handle_destroy_eq]
  refine ⟨ht, ?_, ?_, ?_, ?_, ?_, ?_, ?_⟩
  · simp [set_position, assert_xwayland, sway_assert, ht, hc, container_parent]
  · simp [get_prop, assert_xwayland, sway_assert, ht, hx]
  · simp [get_prop, assert_xwayland, sway_assert, ht, hx]
  · rw [set_size_eq _ _ _ ht]
    rfl
  · rw [set_size_eq _ _ _ ht, hx]
    simp [issued]
  · simp [set_activated, assert_xwayland, sway_assert, ht, World.call, issued]
  · simp [close_view, assert_xwayland, sway_assert, ht, World.call, issued]

/-- C14, amended, at a concrete input: the view of `term_surface` after the
bind and the destroy; `close_view` still asks the surface to close. -/
theorem after_destroy_only_set_position_is_rejected_witness :
    issued (handle_destroy (handle_map (bind_world example_server term_surface 300)
        term_surface)).calls
      (close_view (handle_destroy (handle_map (bind_world example_server term_surface 300)
        term_surface))).calls
      = [Call.wlr_xwayland_surface_close] :=
  (after_destroy_only_set_position_is_rejected
    (handle_map (bind_world example_server term_surface 300) term_surface) rfl
    0 0 (double.of_int 0) (double.of_int 0) true).2.2.2.2.2.2.2

/-! ## C15: `get_prop` -/

/-- C15: for every legacy-compat view, `get_prop` of the title answers the
title the surface has at the time of the call and `get_prop` of the class its
class at that time, whatever they were before (`current` is the state of the
surface when the call is made: nothing is cached), `get_prop` answers NULL
for every other property, and it changes nothing. -/
theorem get_prop_reads_surface (w : World) (current : wlr_xwayland_surface)
    (prop : sway_view_prop)
    (htype : w.view.type = sway_view_type.SWAY_XWAYLAND_VIEW) :
    (get_prop { w with xsurface := current } sway_view_prop.VIEW_PROP_TITLE).1
      = current.title ∧
    (get_prop { w with xsurface := current } sway_view_prop.VIEW_PROP_CLASS).1
      = current.class_ ∧
    (prop ≠ sway_view_prop.VIEW_PROP_TITLE → prop ≠ sway_view_prop.VIEW_PROP_CLASS →
      (get_prop { w with xsurface := current } prop).1 = none) ∧
    (get_prop { w with xsurface := current } prop).2 = { w with xsurface := current } := by
  refine ⟨?_, ?_, ?_, ?_⟩
  · simp [get_prop, assert_xwayland, sway_assert, htype]
  · simp [get_prop, assert_xwayland, sway_assert, htype]
  · intro h1 h2
    cases prop <;> simp [get_prop, assert_xwayland, sway_assert, htype] at h1 h2 ⊢
  · cases prop <;> simp [get_prop, assert_xwayland, sway_assert, htype]

/-- C15 at a concrete input: the view of `term_surface` answers "Term" and
"term-app"; once the surface has changed its title to "Editor" the next call
answers "Editor"; the app id is not answered. -/
theorem get_prop_reads_surface_witness :
    (get_prop (handle_map (bind_world example_server term_surface 300) term_surface)
      sway_view_prop.VIEW_PROP_TITLE).1 = some "Term" ∧
    (get_prop (handle_map (bind_world example_server term_surface 300) term_surface)
      sway_view_prop.VIEW_PROP_CLASS).1 = some "term-app" ∧
    (get_prop { handle_map (bind_world example_server term_surface 300) term_surface with
        xsurface := { term_surface with title := some "Editor" } }
      sway_view_prop.VIEW_PROP_TITLE).1 = some "Editor" ∧
    (get_prop (handle_map (bind_world example_server term_surface 300) term_surface)
      sway_view_prop.VIEW_PROP_APP_ID).1 = none :=
  ⟨(get_prop_reads_surface
      (handle_map (bind_world example_server term_surface 300) term_surface) term_surface
      sway_view_prop.VIEW_PROP_TITLE rfl).1,
    (get_prop_reads_surface
      (handle_map (bind_world example_server term_surface 300) term_surface) term_surface
      sway_view_prop.VIEW_PROP_TITLE rfl).2.1,
    (get_prop_reads_surface
      (handle_map (bind_world example_server term_surface 300) term_surface)
      { term_surface with title := some "Editor" } sway_view_prop.VIEW_PROP_TITLE rfl).1,
    (get_prop_reads_surface
      (handle_map (bind_world example_server term_surface 300) term_surface) term_surface
      sway_view_prop.VIEW_PROP_APP_ID rfl).2.2.1 (by decide) (by decide)⟩

/-! ## C16: `set_size` -/

/-- C16, refuted as stated: `set_size` 70000 x 480 on the view of
`term_surface` stores the pending size 70000 x 480, but the configure request
carries the width 4464: the `int` is passed as `uint16_t`. -/
theorem set_size_narrows_the_extents :
    pending_size (set_size (handle_map (bind_world example_server term_surface 300)
      term_surface) 70000 480) = (70000, 480) ∧
    issued (handle_map (bind_world example_server term_surface 300) term_surface).calls
      (set_size (handle_map (bind_world example_server term_surface 300) term_surface)
        70000 480).calls
      = [Call.wlr_xwayland_surface_configure 0 0 4464 480] ∧
    (4464 : Int) ≠ 70000 :=
  ⟨by decide, by decide, by decide⟩

/-- C16, amended: for every legacy-compat view and every (width, height),
`set_size` sets the pending size of the binding to (width, height) and makes
exactly one call, the configure request with the position the surface has and
the extents the `uint16_t` parameters receive, width and height modulo 65536,
which are (width, height) themselves when both lie between 0 and 65535; it
leaves the view (its size, its container reference and its surface
reference), the tree and the unmanaged list unchanged. -/
theorem set_size_stores_and_configures (w : World) (width height : Int)
    (htype : w.view.type = sway_view_type.SWAY_XWAYLAND_VIEW) :
    pending_size (set_size w width height) = (width, height) ∧
    issued w.calls (set_size w width height).calls
      = [Call.wlr_xwayland_surface_configure w.xsurface.x w.xsurface.y
          (width % 65536) (height % 65536)] ∧
    (0 ≤ width → width ≤ 65535 → 0 ≤ height → height ≤ 65535 →
      issued w.calls (set_size w width height).calls
        = [Call.wlr_xwayland_surface_configure w.xsurface.x w.xsurface.y width height]) ∧
    (set_size w width height).view = w.view ∧
    view_size (set_size w width height) = view_size w ∧
    (set_size w width height).nodes = w.nodes ∧
    (set_size w width height).unmanaged_views = w.unmanaged_views ∧
    tree_attached (set_size w width height) = tree_attached w ∧
    overlay_attached (set_size w width height) = overlay_attached w := by
  have hcalls : issued w.calls (set_size w width height).calls
      = [Call.wlr_xwayland_surface_configure w.xsurface.x w.xsurface.y
          (width % 65536) (height % 65536)] := by
    rw [set_size_eq _ _ _ htype]
    simp [issued, uint16_of_int]
  refine ⟨?_, hcalls, ?_, ?_, ?_, ?_, ?_, ?_, ?_⟩
  · rw [set_size_eq _ _ _ htype]
    rfl
  · intro h1 h2 h3 h4
    rw [hcalls, Int.emod_eq_of_lt h1 (by omega), Int.emod_eq_of_lt h3 (by omega)]
  all_goals rw [set_size_eq _ _ _ htype]
  all_goals rfl

/-- C16, amended, at a concrete input: `set_size` 640 x 480 on the view of
`term_surface`, whose surface is at (0, 0). -/
theorem set_size_stores_and_configures_witness :
    pending_size (set_size (handle_map (bind_world example_server term_surface 300)
      term_surface) 640 480) = (640, 480) ∧
    issued (handle_map (bind_world example_server term_surface 300) term_surface).calls
      (set_size (handle_map (bind_world example_server term_surface 300) term_surface)
        640 480).calls
      = [Call.wlr_xwayland_surface_configure 0 0 640 480] :=
  ⟨(set_size_stores_and_configures
      (handle_map (bind_world example_server term_surface 300) term_surface) 640 480 rfl).1,
    (set_size_stores_and_configures
      (handle_map (bind_world example_server term_surface 300) term_surface) 640 480
      rfl).2.2.1 (by decide) (by decide) (by decide) (by decide)⟩

/-! ## C17: `set_size`, then commit -/

theorem step_keeps_type_and_pending (w : World) (e : Event) :
    (step w e).view.type = w.view.type ∧ (step w e).sway_surface = w.sway_surface := by
  cases e with
  | map xsurface =>
    cases h : goes_unmanaged xsurface
    · simp [step, handle_map_managed _ _ h]
    · simp [step, handle_map_unmanaged _ _ h]
  | unmap => simp [step, handle_unmap_eq]
  | commit => simp [step, handle_commit_eq]
  | request_configure ev => simp [step, handle_request_configure, World.call]
  | destroy => simp [step, handle_destroy_eq]

theorem set_position_keeps_view (w : World) (ox oy : double) :
    (set_position w ox oy).view = w.view ∧
    (set_position w ox oy).sway_surface = w.sway_surface := by
  unfold set_position
  simp only [World.call]
  split
  · exact ⟨rfl, rfl⟩
  · split
    · exact ⟨rfl, rfl⟩
    · split
      · exact ⟨rfl, rfl⟩
      · split
        · exact ⟨rfl, rfl⟩
        · exact ⟨rfl, rfl⟩

theorem get_prop_keeps_view (w : World) (prop : sway_view_prop) :
    (get_prop w prop).2.view = w.view ∧
    (get_prop w prop).2.sway_surface = w.sway_surface := by
  unfold get_prop
  simp only
  split
  · exact ⟨rfl, rfl⟩
  · cases prop <;> exact ⟨rfl, rfl⟩

theorem apply_op_keeps_type (w : World) (op : Op) :
    (apply_op w op).view.type = w.view.type := by
  cases op with
  | event e => exact (step_keeps_type_and_pending w e).1
  | get_prop prop => simp only [apply_op, (get_prop_keeps_view w prop).1]
  | set_size width height =>
    simp only [apply_op, set_size, World.call]
    split <;> rfl
  | set_position ox oy => simp only [apply_op, (set_position_keeps_view w ox oy).1]
  | set_activated activated =>
    simp only [apply_op, set_activated, World.call]
    split <;> rfl
  | close =>
    simp only [apply_op, close_view, World.call]
    split <;> rfl

theorem apply_op_pending (w : World) (op : Op)
    (htype : w.view.type = sway_view_type.SWAY_XWAYLAND_VIEW) :
    pending_size (apply_op w op) = last_set_size (pending_size w) [op] := by
  cases op with
  | event e =>
    simp only [apply_op, pending_size, last_set_size, (step_keeps_type_and_pending w e).2]
  | get_prop prop =>
    simp only [apply_op, pending_size, last_set_size, (get_prop_keeps_view w prop).2]
  | set_size width height =>
    simp only [apply_op, last_set_size, set_size_eq _ _ _ htype, pending_size]
  | set_position ox oy =>
    simp only [apply_op, pending_size, last_set_size, (set_position_keeps_view w ox oy).2]
  | set_activated activated =>
    simp only [apply_op, set_activated, World.call, pending_size, last_set_size]
    split <;> rfl
  | close =>
    simp only [apply_op, close_view, World.call, pending_size, last_set_size]
    split <;> rfl

theorem last_set_size_cons (cur : Int × Int) (op : Op) (ops : List Op) :
    last_set_size cur (op :: ops) = last_set_size (last_set_size cur [op]) ops := by
  cases op <;> rfl

theorem run_ops_pending (ops : List Op) (w : World)
    (htype : w.view.type = sway_view_type.SWAY_XWAYLAND_VIEW) :
    pending_size (run_ops w ops) = last_set_size (pending_size w) ops := by
  induction ops generalizing w with
  | nil => rfl
  | cons op ops ih =>
    have h := ih (apply_op w op) (by rw [apply_op_keeps_type]; exact htype)
    rw [apply_op_pending w op htype] at h
    rw [last_set_size_cons]
    exact h

/-- C17: for every binding, after any sequence of operations (lifecycle events
and calls of the five view functions, in any order) a commit leaves the view
with the size of the most recent `set_size` of the sequence, and with (0, 0)
when the sequence has no `set_size`; and no lifecycle event other than the
commit changes the size of the view. -/
theorem commit_size_is_last_set_size (srv : Server) (xsurface : wlr_xwayland_surface)
    (sway_surface_alloc sway_view_alloc : Option Nat) (w : World) (ops : List Op)
    (hbind : handle_xwayland_surface srv xsurface sway_surface_alloc sway_view_alloc
      = BindResult.bound w) :
    view_size (handle_commit (run_ops w ops)) = last_set_size (0, 0) ops ∧
    (∀ (w1 : World) (e : Event), e ≠ Event.commit → view_size (step w1 e) = view_size w1) := by
  obtain ⟨v, -, -, -, hw⟩ := bind_bound srv xsurface _ _ w hbind
  have h0 := step_keeps_type_and_pending (bind_world srv xsurface v) (Event.map xsurface)
  have hx : step (bind_world srv xsurface v) (Event.map xsurface) = w := by
    rw [hw]
    rfl
  rw [hx] at h0
  have htype : w.view.type = sway_view_type.SWAY_XWAYLAND_VIEW := by rw [h0.1]; rfl
  have hpend : pending_size w = (0, 0) := by
    simp only [pending_size, h0.2]
    rfl
  constructor
  · have h := run_ops_pending ops w htype
    rw [hpend] at h
    rw [← h, handle_commit_eq]
    rfl
  · intro w1 e he
    cases e with
    | map xs =>
      cases h : goes_unmanaged xs
      · simp [step, view_size, handle_map_managed _ _ h]
      · simp [step, view_size, handle_map_unmanaged _ _ h]
    | unmap => simp [step, view_size, handle_unmap_eq]
    | commit => exact absurd rfl he
    | request_configure ev => simp [step, view_size, handle_request_configure, World.call]
    | destroy => simp [step, view_size, handle_destroy_eq]

/-- C17 at a concrete input: `term_surface` is bound, sized to 640 x 480,
committed, unmapped, sized to 320 x 200 and mapped again; the next commit
gives the view the size 320 x 200. -/
theorem commit_size_is_last_set_size_witness :
    view_size (handle_commit (run_ops
      (handle_map (bind_world example_server term_surface 300) term_surface)
      [Op.set_size 640 480, Op.event Event.commit, Op.event Event.unmap,
        Op.set_size 320 200, Op.event (Event.map term_surface)])) = (320, 200) :=
  (commit_size_is_last_set_size example_server term_surface (some 200) (some 300)
    (handle_map (bind_world example_server term_surface 300) term_surface)
    [Op.set_size 640 480, Op.event Event.commit, Op.event Event.unmap,
      Op.set_size 320 200, Op.event (Event.map term_surface)]
    (bind_succeeds example_server term_surface 200 300 100 rfl)).1

/-! ## C18: unmap -/

/-- C18: for every binding state, after `handle_unmap` the view is not in the
unmanaged list, has no container (`view->swayc` is NULL and the tree holds no
container with the address it had, so no container points back to the view
through it) and has a NULL surface reference; the listeners are the ones
linked before; and a second `handle_unmap` changes nothing but the trace of
calls, where one more damage request is recorded: the tree, the unmanaged list
and the view are what they were after the first. -/
theorem unmap_detaches_and_is_idempotent (w : World) :
    overlay_attached (handle_unmap w) = false ∧
    tree_attached (handle_unmap w) = false ∧
    (handle_unmap w).view.swayc = none ∧
    (∀ n, w.view.swayc = some n → find_container (handle_unmap w).nodes n = none) ∧
    (handle_unmap w).view.surface = none ∧
    (handle_unmap w).listeners = w.listeners ∧
    (handle_unmap w).unmanaged_views = w.unmanaged_views.filter (fun e => e != w.view_ptr) ∧
    handle_unmap (handle_unmap w)
      = { handle_unmap w with
          calls := (handle_unmap w).calls ++ [Call.view_damage_whole w.view_ptr] } ∧
    (handle_unmap (handle_unmap w)).nodes = (handle_unmap w).nodes ∧
    (handle_unmap (handle_unmap w)).unmanaged_views = (handle_unmap w).unmanaged_views ∧
    (handle_unmap (handle_unmap w)).view = (handle_unmap w).view := by
  have h2 : handle_unmap (handle_unmap w)
      = { handle_unmap w with
          calls := (handle_unmap w).calls ++ [Call.view_damage_whole w.view_ptr] } := by
    rw [handle_unmap_eq (handle_unmap w), handle_unmap_eq w]
    simp only [container_view_destroy_none, wl_list_remove_idem]
  refine ⟨?_, ?_, ?_, ?_, ?_, ?_, ?_, h2, ?_, ?_, ?_⟩
  · rw [handle_unmap_eq]
    simp [overlay_attached, wl_list_remove]
  · rw [handle_unmap_eq]
    rfl
  · rw [handle_unmap_eq]
  · intro n hn
    rw [handle_unmap_eq]
    simp only [hn]
    exact find_destroyed _ _
  · rw [handle_unmap_eq]
  · rw [handle_unmap_eq]
  · rw [handle_unmap_eq]
    rfl
  · rw [h2]
  · rw [h2]
  · rw [h2]

/-- C18 at a concrete input: the view of `term_surface` is unmapped after the
bind: its container (address 4) is gone from the tree and the five listeners
are still linked. -/
theorem unmap_detaches_and_is_idempotent_witness :
    (handle_map (bind_world example_server term_surface 300) term_surface).view.swayc
      = some 4 ∧
    find_container (handle_unmap (handle_map (bind_world example_server term_surface 300)
      term_surface)).nodes 4 = none ∧
    (handle_unmap (handle_map (bind_world example_server term_surface 300)
      term_surface)).listeners
      = [wl_listener.commit, wl_listener.destroy, wl_listener.request_configure,
          wl_listener.unmap, wl_listener.map] :=
  ⟨by decide,
    (unmap_detaches_and_is_idempotent
      (handle_map (bind_world example_server term_surface 300) term_surface)).2.2.2.1 4
      (by decide),
    (unmap_detaches_and_is_idempotent
      (handle_map (bind_world example_server term_surface 300) term_surface)).2.2.2.2.2.1⟩

/-! ## C19: the unmanaged list after a map -/

theorem step_keeps_nodup (w : World) (e : Event) (h : w.unmanaged_views.Nodup) :
    (step w e).unmanaged_views.Nodup := by
  cases e with
  | map xsurface =>
    cases hf : goes_unmanaged xsurface
    · simpa [step, handle_map_managed _ _ hf] using h
    · simp only [step, handle_map_unmanaged _ _ hf]
      exact List.nodup_cons.mpr ⟨wl_list_remove_not_mem _ _, h.filter _⟩
  | unmap =>
    simp only [step, handle_unmap_eq]
    exact h.filter _
  | commit => simpa [step, handle_commit_eq] using h
  | request_configure ev => simpa [step, handle_request_configure, World.call] using h
  | destroy =>
    simp only [step, handle_destroy_eq]
    exact h.filter _

theorem run_keeps_nodup (events : List Event) (w : World) (h : w.unmanaged_views.Nodup) :
    (run w events).unmanaged_views.Nodup := by
  induction events generalizing w with
  | nil => exact h
  | cons e es ih =>
    rw [run_cons]
    exact ih _ (step_keeps_nodup w e h)

/-- C19: for every unmanaged list and every map event of an unmanaged or
override-redirect surface, whether or not the view was in the list, the list
after `handle_map` is this view followed by the entries of the other views in
the order they had: the view is the head, it occurs exactly once, and the
other entries are the same before and after; and over any sequence of events,
a list in which no view occurs twice stays such a list. -/
theorem map_puts_view_once_at_head (w : World) (xsurface : wlr_xwayland_surface)
    (events : List Event) (hflag : goes_unmanaged xsurface = true) :
    (handle_map w xsurface).unmanaged_views
      = w.view_ptr :: w.unmanaged_views.filter (fun e => e != w.view_ptr) ∧
    (handle_map w xsurface).unmanaged_views.head? = some w.view_ptr ∧
    (handle_map w xsurface).unmanaged_views.count w.view_ptr = 1 ∧
    (handle_map w xsurface).unmanaged_views.filter (fun e => e != w.view_ptr)
      = w.unmanaged_views.filter (fun e => e != w.view_ptr) ∧
    (w.unmanaged_views.Nodup → (run w events).unmanaged_views.Nodup) := by
  rw [handle_map_unmanaged _ _ hflag]
  refine ⟨rfl, rfl, ?_, ?_, run_keeps_nodup events w⟩
  · simp only [wl_list_remove, List.count_cons_self, add_left_eq_self]
    rw [List.count_eq_zero]
    simp
  · simp [wl_list_remove, List.filter_filter]

/-- C19 at a concrete input: the view 300 is already in the list [7, 300, 9]
when its override-redirect surface is mapped; afterwards the list is
[300, 7, 9]. -/
theorem map_puts_view_once_at_head_witness :
    (handle_map { bind_world example_server menu_surface 300 with
        unmanaged_views := [7, 300, 9] } menu_surface).unmanaged_views = [300, 7, 9] ∧
    (handle_map { bind_world example_server menu_surface 300 with
        unmanaged_views := [7, 300, 9] } menu_surface).unmanaged_views.count 300 = 1 := by
  have h := map_puts_view_once_at_head
    { bind_world example_server menu_surface 300 with unmanaged_views := [7, 300, 9] }
    menu_surface [] (by decide)
  refine ⟨?_, h.2.2.1⟩
  rw [h.1]
  decide

end Xwayland
